import Mathlib

/-
  Verification of the reactflow-to-pandapower simulation service
  (FastAPI backend: app/services/simulate.py, app/helper/validation.py,
  app/helper/network_creation.py, app/helper/result_collection.py,
  app/helper/net_export.py, app/models/schemas.py).

  The embedding is a shallow one: the request/response payloads are modelled
  by a JSON-like `Value` type, Python floats by `JNum` (a rational together
  with the three non-finite IEEE values), and the pandapower network by a
  record of element tables.  The external load-flow solver is out of scope of
  the spec and is modelled as an oracle `Net → SolverOutcome` that every
  theorem quantifies over.  The pandapower standard-type library is likewise
  abstracted as a membership oracle `StdLib`.
-/

namespace SimSpec

/-- A Python float: either a finite value (modelled as a rational) or one of
the non-finite IEEE values nan, +inf, -inf. -/
inductive JNum where
  | fin (q : ℚ)
  | nan
  | inf
  | ninf
deriving DecidableEq

/-- `math.isfinite`. -/
def JNum.isFinite : JNum → Bool
  | .fin _ => true
  | _ => false

/-- Python `<` on floats (comparisons with nan are false). -/
def jLt : JNum → JNum → Bool
  | .nan, _ => false
  | _, .nan => false
  | .fin a, .fin b => decide (a < b)
  | .ninf, .ninf => false
  | .inf, .inf => false
  | .ninf, _ => true
  | _, .inf => true
  | .inf, _ => false
  | _, .ninf => false

/-- Python `<=` on floats (comparisons with nan are false). -/
def jLe : JNum → JNum → Bool
  | .nan, _ => false
  | _, .nan => false
  | .fin a, .fin b => decide (a ≤ b)
  | .ninf, _ => true
  | _, .inf => true
  | .inf, _ => false
  | _, .ninf => false

/-- Python `>` on floats. -/
def jGt (a b : JNum) : Bool := jLt b a

/-- Python truthiness of a float (`bool(f)`): zero is falsy, every other
float, nan and the infinities included, is truthy. -/
def jTruthy : JNum → Bool
  | .fin q => decide (q ≠ 0)
  | _ => true

/-- Textual form of a float used inside diagnostic messages.  The exact
Python float repr is not modelled; no property of the service depends on the
text of a number inside a message. -/
def jnumStr : JNum → String
  | .fin q => toString q
  | .nan => "nan"
  | .inf => "inf"
  | .ninf => "-inf"

/-- A JSON-like Python value, as found in the open `data` attribute mapping
of a node or edge and in response payloads. -/
inductive Value where
  | null
  | bool (b : Bool)
  | num (x : JNum)
  | str (s : String)
  | arr (xs : List Value)
  | dict (fields : List (String × Value))

/-- Python truthiness (`bool(v)`). -/
def Value.truthy : Value → Bool
  | .null => false
  | .bool b => b
  | .num x => jTruthy x
  | .str s => decide (s ≠ "")
  | .arr xs => !xs.isEmpty
  | .dict kvs => !kvs.isEmpty

/-- `d.get(key, default)`: the stored value when the key is present (even a
stored null), the default otherwise.  Python dict keys are unique; the
embedding reads the first binding. -/
def dget (d : List (String × Value)) (k : String) (default : Value) : Value :=
  match d.lookup k with
  | some v => v
  | none => default

/-- A minimal model of Python `float(s)` on strings: an optional sign, then
either digits (with an optional fractional part) or the words inf / infinity
/ nan.  Exponents and underscores are not modelled; no claim depends on
string-to-float parsing. -/
def pyFloatOfChars : List Char → Option ℚ
  | [] => none
  | cs =>
    let intPart := cs.takeWhile Char.isDigit
    let rest := cs.dropWhile Char.isDigit
    match rest with
    | [] => if intPart.isEmpty then none else
        some ((intPart.foldl (fun a c => a * 10 + (c.toNat - 48)) 0 : ℕ) : ℚ)
    | '.' :: fr =>
        if fr.any (fun c => !c.isDigit) then none
        else if intPart.isEmpty ∧ fr.isEmpty then none
        else
          let ip : ℕ := intPart.foldl (fun a c => a * 10 + (c.toNat - 48)) 0
          let fp : ℕ := fr.foldl (fun a c => a * 10 + (c.toNat - 48)) 0
          some ((ip : ℚ) + (fp : ℚ) / ((10 : ℚ) ^ fr.length))
    | _ => none

/-- Python `float(s)` for a string. -/
def pyFloatOfString (s : String) : Option JNum :=
  let t := (s.trim).toLower
  if t = "nan" ∨ t = "+nan" ∨ t = "-nan" then some .nan
  else if t = "inf" ∨ t = "+inf" ∨ t = "infinity" ∨ t = "+infinity" then some .inf
  else if t = "-inf" ∨ t = "-infinity" then some .ninf
  else
    match t.data with
    | '-' :: cs => (pyFloatOfChars cs).map (fun q => .fin (-q))
    | '+' :: cs => (pyFloatOfChars cs).map (fun q => .fin q)
    | cs => (pyFloatOfChars cs).map (fun q => .fin q)

/-- Python `float(v)`: `none` models the TypeError/ValueError raised on
unconvertible values. -/
def pyFloat : Value → Option JNum
  | .null => none
  | .bool b => some (.fin (if b then 1 else 0))
  | .num x => some x
  | .str s => pyFloatOfString s
  | .arr _ => none
  | .dict _ => none

/-- Python `int(v)` restricted to what the service uses (`_to_int`):
truncation toward zero for floats, no string parsing beyond digits. -/
def pyInt : Value → Option Int
  | .null => none
  | .bool b => some (if b then 1 else 0)
  | .num (.fin q) => some (q.num / (q.den : Int))
  | .num _ => none
  | .str s =>
      let t := s.trim
      match t.data with
      | [] => none
      | '-' :: cs => if cs ≠ [] ∧ cs.all Char.isDigit then
          some (-(cs.foldl (fun a c => a * 10 + (c.toNat - 48)) 0 : ℕ) : Int) else none
      | cs => if cs.all Char.isDigit then
          some ((cs.foldl (fun a c => a * 10 + (c.toNat - 48)) 0 : ℕ) : Int) else none
  | .arr _ => none
  | .dict _ => none

/-- Python `str(v)`.  The reprs of lists and dicts are abstracted; the
service only ever applies `str` to strings, numbers and None. -/
def Value.pyStr : Value → String
  | .null => "None"
  | .bool b => if b then "True" else "False"
  | .num x => jnumStr x
  | .str s => s
  | .arr _ => "[list]"
  | .dict _ => "[dict]"

/-- `_as_str` of validation.py: empty string for None, `str(v)` otherwise. -/
def asStr : Value → String
  | .null => ""
  | v => v.pyStr

/-- `_as_float` of validation.py: `float(v)` with exceptions turned into
None (the result may still be non-finite). -/
def asFloat (v : Value) : Option JNum := pyFloat v

/-- `_to_optional_float` (simulate.py and result_collection.py): None for
unconvertible or non-finite values. -/
def to_optional_float (v : Value) : Option JNum :=
  match pyFloat v with
  | none => none
  | some x => if x.isFinite then some x else none

/-- `_to_float` of network_creation.py: `float(v)` with a default on
conversion failure. -/
def toFloatD (v : Value) (d : ℚ) : JNum :=
  match pyFloat v with
  | some x => x
  | none => .fin d

/-- `_to_int` of network_creation.py. -/
def toIntD (v : Value) (d : Int) : Int :=
  match pyInt v with
  | some i => i
  | none => d

/-- `x or default` on an optional float (Python `or`: the left operand when
truthy, so None and 0.0 both fall back to the default). -/
def pyOrFloat (o : Option JNum) (d : ℚ) : JNum :=
  match o with
  | some x => if jTruthy x then x else .fin d
  | none => .fin d

/-! ### Association-list model of Python dicts -/

/-- Dict assignment `m[k] = v`: replaces the binding in place when the key is
present (Python dicts keep the original position), appends otherwise. -/
def aset {κ α : Type} [DecidableEq κ] (m : List (κ × α)) (k : κ) (v : α) :
    List (κ × α) :=
  match m with
  | [] => [(k, v)]
  | (k', v') :: rest => if k' = k then (k, v) :: rest else (k', v') :: aset rest k v

/-- `m.setdefault(k, v)`: inserts only when the key is absent. -/
def asetdefault {κ α : Type} [DecidableEq κ] [BEq κ] (m : List (κ × α)) (k : κ)
    (v : α) : List (κ × α) :=
  if (m.lookup k).isSome then m else m ++ [(k, v)]

/-- `errors.setdefault(k, []).append(e)` on a dict of error lists. -/
def pushBucket {α : Type} (m : List (String × List α)) (k : String) (v : α) :
    List (String × List α) :=
  match m with
  | [] => [(k, [v])]
  | (k', vs) :: rest =>
      if k' = k then (k', vs ++ [v]) :: rest else (k', vs) :: pushBucket rest k v

/-- Lookup of an error bucket, the empty list when absent. -/
def bucket {α : Type} (m : List (String × List α)) (k : String) : List α :=
  (m.lookup k).getD []

/-! ### Request and response schemas (app/models/schemas.py)

`ValidationError` in schemas.py has the fields element_id, element_type,
field and message; the `element_name` keyword passed at some construction
sites is silently dropped by the pydantic model (extra keys are ignored) and
is therefore not part of the embedding. -/

structure VError where
  element_id : String
  element_type : String
  field : Option String
  message : String
deriving DecidableEq

structure CreationStatus where
  element_id : String
  element_type : String
  success : Bool
  error : Option String
deriving DecidableEq

structure BusResult where
  vm_pu : Option JNum
  va_degree : Option JNum
  p_mw : Option JNum
  q_mvar : Option JNum
deriving DecidableEq

/-- `runtime_ms` is wall-clock time, outside the scope of the embedding; it
is fixed at 0 (the spec's idempotence property P5 excludes it as well). -/
structure Summary where
  converged : Bool
  runtime_ms : Int
  slack_bus_id : String
deriving DecidableEq

/-- A ReactFlow node after `model_dump`.  The pydantic schema restricts
`type` to a closed set of strings; the embedding leaves it a plain string
(every claim only instantiates types of that set). -/
structure RFNode where
  id : String
  type : String
  data : List (String × Value)

/-- A ReactFlow edge after `model_dump`: `id` and `data` are optional. -/
structure RFEdge where
  id : Option String
  source : String
  target : String
  data : Option (List (String × Value))

/-- An edge after the normalization step of `simulate_from_reactflow`
(synthetic id when the id is missing or empty; `data or` applied once, as
every downstream read does). -/
structure NEdge where
  id : String
  source : String
  target : String
  data : List (String × Value)

/-- Run settings.  `return_network` is modelled from the spec (section 6
lists it among the inbound settings); the snapshot's RunSettings class lacks
the field although simulate.py and the repository's tests read it. -/
structure RunSettings where
  algorithm : String := "nr"
  max_iter : Int := 20
  tolerance_mva : JNum := .fin (1 / 1000000)
  return_network : String := "none"

structure SimulateRequest where
  nodes : List RFNode
  edges : List RFEdge
  settings : RunSettings

/-- The response.  `network` is modelled from the spec (section 6's optional
NetworkExport payload); the snapshot's SimulateResponse class lacks the
field although simulate.py and the repository's tests use it. -/
structure SimulateResponse where
  summary : Summary
  bus_by_id : List (String × BusResult)
  res_bus : List Value
  warnings : List String
  errors : List (String × List VError)
  element_status : List (String × CreationStatus)
  results : List (String × Value)
  network : Option Value

/-- Edge-id normalization of simulate_from_reactflow: a missing or falsy id
becomes `edge_<position>`. -/
def normalizeEdges (edges : List RFEdge) : List NEdge :=
  edges.enum.map fun p =>
    { id :=
        match p.2.id with
        | some s => if s = "" then "edge_" ++ toString p.1 else s
        | none => "edge_" ++ toString p.1
      source := p.2.source
      target := p.2.target
      data := p.2.data.getD [] }

/-- Nodes of one declared type, in request order. -/
def nodesOfType (nodes : List RFNode) (t : String) : List RFNode :=
  nodes.filter fun n => n.type = t

/-! ### Topology validation (app/helper/validation.py, `_validate_network`) -/

/-- The sets of line ids and trafo ids opened by switch nodes whose data has
a falsy `closed` (default true): the pair (open line ids, open trafo ids).
Python accumulates them in two sets; the embedding keeps insertion order,
which only membership ever depends on. -/
def openElementIds (nodes : List RFNode) : List String × List String :=
  nodes.foldl
    (fun acc n =>
      if n.type ≠ "switch" then acc
      else
        let data := n.data
        if (dget data "closed" (.bool true)).truthy then acc
        else
          let et := asStr (dget data "elementType" (.str "line"))
          let eid := asStr (dget data "elementId" (.str ""))
          if eid = "" then acc
          else if et = "line" then (acc.1 ++ [eid], acc.2)
          else if et = "trafo" then (acc.1, acc.2 ++ [eid])
          else acc)
    ([], [])

/-- Bus node ids considered by the islanding check (bus nodes with a truthy
id), in request order. -/
def islandBusIds (nodes : List RFNode) : List String :=
  (nodes.filter fun n => n.type = "bus" ∧ n.id ≠ "").map (·.id)

/-- External ids of buses hosting an ext_grid (via the `busId` field). -/
def extGridBusIds (nodes : List RFNode) : List String :=
  nodes.filterMap fun n =>
    if n.type = "ext_grid" then
      let bid := asStr (dget n.data "busId" (.str ""))
      if bid = "" then none else some bid
    else none

/-- The adjacency contribution of one edge: nothing when the edge is opened
by a switch, when an endpoint is falsy or not a known bus, or when it is a
self-loop. -/
def lineLinkOf (busSet openL : List String) (e : NEdge) :
    Option (String × String) :=
  if openL.contains e.id then none
  else if e.source = "" ∨ e.target = "" then none
  else if ¬ busSet.contains e.source ∨ ¬ busSet.contains e.target then none
  else if e.source = e.target then none
  else some (e.source, e.target)

/-- Undirected adjacency contributions of line edges: every edge not opened
by a switch whose endpoints are two distinct known buses. -/
def lineLinks (nodes : List RFNode) (edges : List NEdge) :
    List (String × String) :=
  edges.filterMap (lineLinkOf (islandBusIds nodes) (openElementIds nodes).1)

/-- The adjacency contribution of one two-winding transformer node. -/
def trafoLinkOf (busSet openT : List String) (n : RFNode) :
    Option (String × String) :=
  if n.type ≠ "transformer" then none
  else if openT.contains n.id then none
  else
    let hv := asStr (dget n.data "hvBusId" (.str ""))
    let lv := asStr (dget n.data "lvBusId" (.str ""))
    if busSet.contains hv ∧ busSet.contains lv ∧ hv ≠ lv then some (hv, lv)
    else none

/-- Adjacency contributions of two-winding transformer nodes not opened by a
switch. -/
def trafoLinks (nodes : List RFNode) : List (String × String) :=
  nodes.filterMap (trafoLinkOf (islandBusIds nodes) (openElementIds nodes).2)

/-- The adjacency contributions of one three-winding transformer node: the
three implied pairwise connections among hv/mv/lv. -/
def trafo3wLinksOf (busSet : List String) (n : RFNode) :
    List (String × String) :=
  if n.type ≠ "trafo3w" then []
  else
    let hv := asStr (dget n.data "hvBusId" (.str ""))
    let mv := asStr (dget n.data "mvBusId" (.str ""))
    let lv := asStr (dget n.data "lvBusId" (.str ""))
    [(hv, mv), (mv, lv), (hv, lv)].filter fun p =>
      busSet.contains p.1 ∧ busSet.contains p.2 ∧ p.1 ≠ p.2

/-- Adjacency contributions of three-winding transformers. -/
def trafo3wLinks (nodes : List RFNode) : List (String × String) :=
  nodes.flatMap (trafo3wLinksOf (islandBusIds nodes))

/-- All adjacency contributions. -/
def islandLinks (nodes : List RFNode) (edges : List NEdge) :
    List (String × String) :=
  lineLinks nodes edges ++ trafoLinks nodes ++ trafo3wLinks nodes

/-- Neighbours of a bus in the islanding graph.  The source stores the
adjacency as a dict of Python sets; only membership and exhaustiveness of
the neighbour enumeration matter to the traversal, so the embedding uses the
contribution list directly (possible duplicates are harmless: the traversal
visits each bus once). -/
def islandNeighbors (nodes : List RFNode) (edges : List NEdge) (cur : String) :
    List String :=
  (islandLinks nodes edges).flatMap fun p =>
    (if cur = p.1 then [p.2] else []) ++ (if cur = p.2 then [p.1] else [])

/-- One round of pushing unvisited neighbours onto the stack
(`for nei in adj[cur]: if nei not in visited: visited.add; stack.append`). -/
def dfsPush (nbrs : List String) (stack visited : List String) :
    List String × List String :=
  nbrs.foldl
    (fun sv nei => if sv.2.contains nei then sv else (nei :: sv.1, nei :: sv.2))
    (stack, visited)

/-- The stack-based component traversal of `_islanding_errors`.  `fuel`
bounds the number of pops; every pushed bus is new to `visited`, so a fuel of
(number of bus ids + 1) can never be exhausted. -/
def dfsLoop (nbrs : String → List String) :
    Nat → List String → List String → List String → List String × List String
  | 0, _, visited, comp => (comp, visited)
  | _ + 1, [], visited, comp => (comp, visited)
  | fuel + 1, cur :: stack, visited, comp =>
      let sv := dfsPush (nbrs cur) stack visited
      dfsLoop nbrs fuel sv.1 sv.2 (comp ++ [cur])

/-- The outer loop of the islanding check: walk the bus ids in order, explore
each still-unvisited component, and return the first one that contains no
ext_grid bus (the source emits its two errors and breaks there). -/
def islandScan (nbrs : String → List String) (ext : List String) (fuel : Nat) :
    List String → List String → Option (List String)
  | [], _ => none
  | start :: rest, visited =>
      if visited.contains start then islandScan nbrs ext fuel rest visited
      else
        let r := dfsLoop nbrs fuel [start] (start :: visited) []
        if r.1.any (fun b => ext.contains b) then islandScan nbrs ext fuel rest r.2
        else some r.1

/-- The first connected component (in traversal order) with no ext_grid bus,
if any. -/
def firstSlacklessComponent (nodes : List RFNode) (edges : List NEdge) :
    Option (List String) :=
  let bus := islandBusIds nodes
  islandScan (islandNeighbors nodes edges) (extGridBusIds nodes)
    (bus.length + 1) bus []

/-- The network-level islanding error. -/
def islandNetworkError : VError :=
  { element_id := ""
    element_type := "network"
    field := some "islanding"
    message := "Island detected without ext_grid (slack). Add ext_grid to each island or connect islands." }

/-- The bus-level islanding error pointing at a representative bus. -/
def islandBusError (rep : String) : VError :=
  { element_id := rep
    element_type := "bus"
    field := some "islanding"
    message := "This bus is in an island without ext_grid" }

/-- `_islanding_errors`: two errors for the first island without a slack
source, nothing otherwise.  (When the component were empty the source would
emit only the network-level error; components always contain their start.) -/
def islanding_errors (nodes : List RFNode) (edges : List NEdge) : List VError :=
  match firstSlacklessComponent nodes edges with
  | none => []
  | some comp =>
      match comp.head? with
      | some rep => [islandNetworkError, islandBusError rep]
      | none => [islandNetworkError]

/-- Per-bus-node validation (`vn_kv` present, numeric and positive).  The
comparison is Python `<=` on the converted float, so a nan `vn_kv` passes. -/
def busErrors (nodes : List RFNode) : List VError :=
  nodes.flatMap fun n =>
    if n.type ≠ "bus" then []
    else
      match asFloat (dget n.data "vn_kv" Value.null) with
      | none => [⟨n.id, "bus", some "vn_kv", "vn_kv must be a number"⟩]
      | some x =>
          if jLe x (.fin 0) then [⟨n.id, "bus", some "vn_kv", "vn_kv must be > 0"⟩]
          else []

/-- The bus-bound nodes in the validation's concatenation order. -/
def busBoundNodes (nodes : List RFNode) : List RFNode :=
  nodesOfType nodes "load" ++ nodesOfType nodes "gen" ++ nodesOfType nodes "sgen"
    ++ nodesOfType nodes "motor" ++ nodesOfType nodes "shunt"
    ++ nodesOfType nodes "storage" ++ nodesOfType nodes "ext_grid"

/-- Validation of one bus-bound node: `busId` present and resolvable, and for
load/gen/sgen a numeric `p_mw`. -/
def busBoundErrorsFor (busmap : List (String × Nat)) (n : RFNode) : List VError :=
  let data := n.data
  let bid := asStr (dget data "busId" (.str ""))
  let e1 :=
    if bid = "" then [⟨n.id, n.type, some "busId", "busId is required"⟩]
    else if (busmap.lookup bid).isNone then
      [⟨n.id, n.type, some "busId", "busId '" ++ bid ++ "' does not exist"⟩]
    else []
  let e2 :=
    if n.type = "load" ∨ n.type = "gen" ∨ n.type = "sgen" then
      match asFloat (dget data "p_mw" Value.null) with
      | none => [⟨n.id, n.type, some "p_mw", "p_mw must be a number"⟩]
      | some _ => []
    else []
  e1 ++ e2

/-- Validation of one two-winding transformer node. -/
def transformerErrorsFor (busmap : List (String × Nat)) (n : RFNode) :
    List VError :=
  let data := n.data
  let hv := (dget data "hvBusId" (.str "")).pyStr
  let lv := (dget data "lvBusId" (.str "")).pyStr
  let e1 :=
    if hv = "" then [⟨n.id, "transformer", some "hvBusId", "hvBusId is required"⟩]
    else if (busmap.lookup hv).isNone then
      [⟨n.id, "transformer", some "hvBusId", "hvBusId '" ++ hv ++ "' does not exist"⟩]
    else []
  let e2 :=
    if lv = "" then [⟨n.id, "transformer", some "lvBusId", "lvBusId is required"⟩]
    else if (busmap.lookup lv).isNone then
      [⟨n.id, "transformer", some "lvBusId", "lvBusId '" ++ lv ++ "' does not exist"⟩]
    else []
  let e3 :=
    if (dget data "std_type" (.str "")).pyStr = "" then
      [⟨n.id, "transformer", some "std_type", "std_type is required"⟩]
    else []
  e1 ++ e2 ++ e3

/-- Validation of one three-winding transformer node. -/
def trafo3wErrorsFor (busmap : List (String × Nat)) (n : RFNode) : List VError :=
  let data := n.data
  let hv := (dget data "hvBusId" (.str "")).pyStr
  let mv := (dget data "mvBusId" (.str "")).pyStr
  let lv := (dget data "lvBusId" (.str "")).pyStr
  let e1 :=
    if hv = "" then [⟨n.id, "trafo3w", some "hvBusId", "hvBusId is required"⟩]
    else if (busmap.lookup hv).isNone then
      [⟨n.id, "trafo3w", some "hvBusId", "hvBusId '" ++ hv ++ "' does not exist"⟩]
    else []
  let e2 :=
    if mv = "" then [⟨n.id, "trafo3w", some "mvBusId", "mvBusId is required"⟩]
    else if (busmap.lookup mv).isNone then
      [⟨n.id, "trafo3w", some "mvBusId", "mvBusId '" ++ mv ++ "' does not exist"⟩]
    else []
  let e3 :=
    if lv = "" then [⟨n.id, "trafo3w", some "lvBusId", "lvBusId is required"⟩]
    else if (busmap.lookup lv).isNone then
      [⟨n.id, "trafo3w", some "lvBusId", "lvBusId '" ++ lv ++ "' does not exist"⟩]
    else []
  let e4 :=
    if (dget data "std_type" (.str "")).pyStr = "" then
      [⟨n.id, "trafo3w", some "std_type", "std_type is required"⟩]
    else []
  e1 ++ e2 ++ e3 ++ e4

/-- Validation of one switch node (`busId` resolvable, `elementId` present,
`elementType` in the closed set). -/
def switchErrorsFor (busmap : List (String × Nat)) (n : RFNode) : List VError :=
  let data := n.data
  let bid := (dget data "busId" (.str "")).pyStr
  let eid := (dget data "elementId" (.str "")).pyStr
  let et := (dget data "elementType" (.str "line")).pyStr
  let e1 :=
    if bid = "" then [⟨n.id, "switch", some "busId", "busId is required"⟩]
    else if (busmap.lookup bid).isNone then
      [⟨n.id, "switch", some "busId", "busId '" ++ bid ++ "' does not exist"⟩]
    else []
  let e2 :=
    if eid = "" then [⟨n.id, "switch", some "elementId", "elementId is required"⟩]
    else []
  let e3 :=
    if et ≠ "line" ∧ et ≠ "trafo" ∧ et ≠ "bus" then
      [⟨n.id, "switch", some "elementType",
        "elementType must be 'line', 'trafo', or 'bus', got '" ++ et ++ "'"⟩]
    else []
  e1 ++ e2 ++ e3

/-- The declared type of the first node with the given id. -/
def nodeTypeOf (nodes : List RFNode) (idv : String) : Option String :=
  (nodes.find? fun n => n.id = idv).map (·.type)

/-- Validation of one edge by its `kind`: line edges must run bus-to-bus and
carry a standard type and a positive numeric length; attach edges must pair a
bus with a node of the attach type (ext_grid edges one-way ext_grid → bus);
other kinds are ignored. -/
def edgeErrorsFor (nodes : List RFNode) (busmap : List (String × Nat))
    (e : NEdge) : List VError :=
  let d := e.data
  let kind := (dget d "kind" (.str "")).pyStr
  if kind = "line" then
    if (busmap.lookup e.source).isNone ∨ (busmap.lookup e.target).isNone then
      [⟨e.id, "line", some "endpoints", "Line must connect between two buses."⟩]
    else
      let e1 :=
        if (dget d "std_type" (.str "")).pyStr = "" then
          [⟨e.id, "line", some "std_type", "std_type is required for lines."⟩]
        else []
      let e2 :=
        match asFloat (dget d "length_km" Value.null) with
        | none => [⟨e.id, "line", some "length_km", "length_km must be a number."⟩]
        | some x =>
            if jLe x (.fin 0) then
              [⟨e.id, "line", some "length_km", "length_km must be > 0."⟩]
            else []
      e1 ++ e2
  else if kind = "attach" then
    let atype := (dget d "attach_type" (.str "")).pyStr
    if atype = "" then []
    else
      let srcT := nodeTypeOf nodes e.source
      let tgtT := nodeTypeOf nodes e.target
      let ok :=
        if atype = "ext_grid" then srcT = some "ext_grid" ∧ tgtT = some "bus"
        else (srcT = some "bus" ∧ tgtT = some atype) ∨
          (tgtT = some "bus" ∧ srcT = some atype)
      if ok then []
      else
        [⟨e.id, "attachment", some "endpoints",
          "Invalid attachment for type '" ++ atype
            ++ "'. Must connect between a bus and a '" ++ atype ++ "' node."⟩]
  else []

/-- The global mandatory-slack check. -/
def extGridPresenceErrors (nodes : List RFNode) : List VError :=
  if (nodesOfType nodes "ext_grid").isEmpty then
    [⟨"", "network", some "ext_grid", "At least one ext_grid is required"⟩]
  else []

/-- Every check of `_validate_network` except the islanding pass, in the
source's accumulation order. -/
def base_errors (nodes : List RFNode) (edges : List NEdge)
    (busmap : List (String × Nat)) : List VError :=
  busErrors nodes
    ++ (busBoundNodes nodes).flatMap (busBoundErrorsFor busmap)
    ++ (nodesOfType nodes "transformer").flatMap (transformerErrorsFor busmap)
    ++ (nodesOfType nodes "trafo3w").flatMap (trafo3wErrorsFor busmap)
    ++ (nodesOfType nodes "switch").flatMap (switchErrorsFor busmap)
    ++ edges.flatMap (edgeErrorsFor nodes busmap)
    ++ extGridPresenceErrors nodes

/-- `_validate_network`: all structural checks, then the islanding check only
when everything else is clean. -/
def validate_network (nodes : List RFNode) (edges : List NEdge)
    (busmap : List (String × Nat)) : List VError :=
  let base := base_errors nodes edges busmap
  base ++ (if base.isEmpty then islanding_errors nodes edges else [])

/-! ### The pandapower network model (tables restricted to the columns the
service sets; indices are assigned sequentially from 0, as pandapower does on
a network built only through create_* calls). -/

structure BusRec where
  vn_kv : JNum
  name : String
  in_service : Bool
deriving DecidableEq

structure ExtGridRec where
  bus : Nat
  vm_pu : JNum
  va_degree : JNum
  name : String
  in_service : Bool
deriving DecidableEq

structure LoadRec where
  bus : Nat
  p_mw : JNum
  q_mvar : JNum
  scaling : JNum
  name : String
  in_service : Bool
  controllable : Bool
deriving DecidableEq

structure GenRec where
  bus : Nat
  p_mw : JNum
  vm_pu : JNum
  min_q_mvar : Option JNum
  max_q_mvar : Option JNum
  name : String
  in_service : Bool
  controllable : Bool
deriving DecidableEq

structure SgenRec where
  bus : Nat
  p_mw : JNum
  q_mvar : JNum
  name : String
  in_service : Bool
  controllable : Bool
deriving DecidableEq

structure MotorRec where
  bus : Nat
  pn_mech_mw : JNum
  cos_phi : JNum
  efficiency : JNum
  loading_percent : JNum
  name : String
  in_service : Bool
deriving DecidableEq

structure ShuntRec where
  bus : Nat
  p_mw : JNum
  q_mvar : JNum
  vn_kv : JNum
  step : Option JNum
  max_step : Option JNum
  name : String
  in_service : Bool
deriving DecidableEq

structure StorageRec where
  bus : Nat
  p_mw : JNum
  q_mvar : JNum
  max_e_mwh : JNum
  min_e_mwh : JNum
  max_p_mw : JNum
  min_p_mw : JNum
  soc_percent : JNum
  name : String
  in_service : Bool
deriving DecidableEq

structure TrafoRec where
  hv_bus : Nat
  lv_bus : Nat
  std_type : String
  name : String
  in_service : Bool
deriving DecidableEq

structure Trafo3wRec where
  hv_bus : Nat
  mv_bus : Nat
  lv_bus : Nat
  std_type : String
  name : String
  in_service : Bool
deriving DecidableEq

structure LineRec where
  from_bus : Nat
  to_bus : Nat
  length_km : JNum
  std_type : Option String
  r_ohm_per_km : Option JNum
  x_ohm_per_km : Option JNum
  c_nf_per_km : Option JNum
  max_i_ka : Option JNum
  name : Option String
  parallel : Int
  df : JNum
  in_service : Bool
deriving DecidableEq

structure SwitchRec where
  bus : Nat
  element : Nat
  et : String
  closed : Bool
  swtype : Option String
  z_ohm : Option JNum
  name : String
  in_service : Bool
deriving DecidableEq

/-- `pp.create_empty_network()` plus everything the creation routines append.
`converged` is the flag `pp.runpp` sets on the model; `sn_mva` and `f_hz` are
the pandapower defaults read back by the network export. -/
structure Net where
  bus : List BusRec := []
  line : List LineRec := []
  trafo : List TrafoRec := []
  trafo3w : List Trafo3wRec := []
  ext_grid : List ExtGridRec := []
  load : List LoadRec := []
  gen : List GenRec := []
  sgen : List SgenRec := []
  motor : List MotorRec := []
  shunt : List ShuntRec := []
  storage : List StorageRec := []
  switch : List SwitchRec := []
  converged : Bool := false
  sn_mva : JNum := .fin 1
  f_hz : JNum := .fin 50
deriving DecidableEq

/-- The pandapower standard-type library, abstracted as membership oracles:
`pp.create_line` / `pp.create_transformer` / `pp.create_trafo3w` raise on an
unknown standard-type name, which the per-element try blocks catch. -/
structure StdLib where
  lineStd : String → Bool
  trafoStd : String → Bool
  trafo3wStd : String → Bool

/-! ### Network assembly (app/helper/network_creation.py) -/

/-- The loop body of `_add_buses`: create each bus, record its index, and
remember the first bus node id as the provisional slack id.  A `float`
conversion failure of `vn_kv` is NOT inside a try block in the source, so it
aborts the whole call (modelled by `Except.error`). -/
def addBusesGo (net : Net) (busmap : List (String × Nat))
    (slack : Option String) :
    List RFNode → Except String (Net × List (String × Nat) × String)
  | [] =>
      match slack with
      | none => .error "No bus nodes provided"
      | some s => .ok (net, busmap, s)
  | n :: rest =>
      match pyFloat (dget n.data "vn_kv" (.num (.fin 22))) with
      | none => .error "float() argument for vn_kv is not convertible"
      | some v =>
          let name := (dget n.data "name" (.str "Bus")).pyStr
          let insv := (dget n.data "in_service" (.bool true)).truthy
          let idx := net.bus.length
          addBusesGo { net with bus := net.bus ++ [⟨v, name, insv⟩] }
            (aset busmap n.id idx) (some (slack.getD n.id)) rest

/-- `_add_buses`. -/
def add_buses (net : Net) (nodes : List RFNode) :
    Except String (Net × List (String × Nat) × String) :=
  addBusesGo net [] none nodes

/-- `_add_loads`: per-element creation with the busId guard outside and the
float conversions inside the try block. -/
def add_loads (net : Net) (nodes : List RFNode)
    (busmap : List (String × Nat)) : Net × Nat × List CreationStatus :=
  nodes.foldl
    (fun acc n =>
      let data := n.data
      let bid := (dget data "busId" (.str "")).pyStr
      if bid = "" ∨ (busmap.lookup bid).isNone then
        (acc.1, acc.2.1, acc.2.2
          ++ [⟨n.id, "load", false, some ("busId '" ++ bid ++ "' not found or invalid")⟩])
      else
        let b := (busmap.lookup bid).getD 0
        match (do
          let p ← pyFloat (dget data "p_mw" (.num (.fin 1)))
          let q ← pyFloat (dget data "q_mvar" (.num (.fin 0)))
          let sc ← pyFloat (dget data "scaling" (.num (.fin 1)))
          pure (p, q, sc) : Option (JNum × JNum × JNum)) with
        | none =>
            (acc.1, acc.2.1, acc.2.2
              ++ [⟨n.id, "load", false, some "float() conversion failed"⟩])
        | some (p, q, sc) =>
            ({ acc.1 with load := acc.1.load ++
                [⟨b, p, q, sc, (dget data "name" (.str "Load")).pyStr,
                  (dget data "in_service" (.bool true)).truthy,
                  (dget data "controllable" (.bool false)).truthy⟩] },
             acc.2.1 + 1, acc.2.2))
    (net, 0, [])

/-- The attachment map of `_add_ext_grids`: for every edge of kind "attach"
with attach_type "ext_grid", remember source (ext_grid node) → target (bus).
Note the source applies plain `str` to `data.get("kind")` with no default, so
a missing kind reads as the string "None". -/
def extGridAttachMap (edges : List NEdge) : List (String × String) :=
  edges.foldl
    (fun m e =>
      let d := e.data
      if (dget d "kind" Value.null).pyStr ≠ "attach" then m
      else if (dget d "attach_type" Value.null).pyStr ≠ "ext_grid" then m
      else if e.source = "" ∨ e.target = "" then m
      else aset m e.source e.target)
    []

/-- The effective bus reference of an ext_grid node: its `busId` field, or
the attach-edge fallback when that is empty. -/
def effectiveExtGridBusId (attach : List (String × String)) (n : RFNode) :
    String :=
  let bid0 := (dget n.data "busId" (.str "")).pyStr
  if bid0 = "" then (attach.lookup n.id).getD "" else bid0

/-- The per-element body of `_add_ext_grids`. -/
def extGridStep (busmap : List (String × Nat))
    (attach : List (String × String)) (acc : Net × Nat × List CreationStatus)
    (n : RFNode) : Net × Nat × List CreationStatus :=
  let data := n.data
  let bid := effectiveExtGridBusId attach n
  if bid = "" ∨ (busmap.lookup bid).isNone then
    (acc.1, acc.2.1, acc.2.2
      ++ [⟨n.id, "ext_grid", false, some ("busId '" ++ bid ++ "' not found or invalid")⟩])
  else
    let b := (busmap.lookup bid).getD 0
    match (do
      let vm ← pyFloat (dget data "vm_pu" (.num (.fin 1)))
      let va ← pyFloat (dget data "va_degree" (.num (.fin 0)))
      pure (vm, va) : Option (JNum × JNum)) with
    | none =>
        (acc.1, acc.2.1, acc.2.2
          ++ [⟨n.id, "ext_grid", false, some "float() conversion failed"⟩])
    | some (vm, va) =>
        ({ acc.1 with ext_grid := acc.1.ext_grid ++
            [⟨b, vm, va, (dget data "name" (.str "Ext Grid")).pyStr,
              (dget data "in_service" (.bool true)).truthy⟩] },
         acc.2.1 + 1, acc.2.2)

/-- `_add_ext_grids`: busId with the attach-edge fallback, then per-element
creation. -/
def add_ext_grids (net : Net) (nodes : List RFNode)
    (busmap : List (String × Nat)) (edges : List NEdge) :
    Net × Nat × List CreationStatus :=
  nodes.foldl (extGridStep busmap (extGridAttachMap edges)) (net, 0, [])

/-- Optional float fields of the pattern
`float(data.get(k, d)) if data.get(k) is not None else None`: None when the
key is absent or null, otherwise the converted value (conversion failure
propagates to the element's try block). -/
def optFloatField (data : List (String × Value)) (k : String) :
    Option (Option JNum) :=
  match dget data k Value.null with
  | .null => some none
  | v => (pyFloat v).map some

/-- `_add_gens`. -/
def add_gens (net : Net) (nodes : List RFNode)
    (busmap : List (String × Nat)) : Net × Nat × List CreationStatus :=
  nodes.foldl
    (fun acc n =>
      let data := n.data
      let bid := (dget data "busId" (.str "")).pyStr
      if bid = "" ∨ (busmap.lookup bid).isNone then
        (acc.1, acc.2.1, acc.2.2
          ++ [⟨n.id, "gen", false, some ("busId '" ++ bid ++ "' not found or invalid")⟩])
      else
        let b := (busmap.lookup bid).getD 0
        match (do
          let p ← pyFloat (dget data "p_mw" (.num (.fin 1)))
          let vm ← pyFloat (dget data "vm_pu" (.num (.fin 1)))
          let minq ← optFloatField data "min_q_mvar"
          let maxq ← optFloatField data "max_q_mvar"
          pure (p, vm, minq, maxq) :
            Option (JNum × JNum × Option JNum × Option JNum)) with
        | none =>
            (acc.1, acc.2.1, acc.2.2
              ++ [⟨n.id, "gen", false, some "float() conversion failed"⟩])
        | some (p, vm, minq, maxq) =>
            ({ acc.1 with gen := acc.1.gen ++
                [⟨b, p, vm, minq, maxq, (dget data "name" (.str "Gen")).pyStr,
                  (dget data "in_service" (.bool true)).truthy,
                  (dget data "controllable" (.bool true)).truthy⟩] },
             acc.2.1 + 1, acc.2.2))
    (net, 0, [])

/-- `_add_sgens`. -/
def add_sgens (net : Net) (nodes : List RFNode)
    (busmap : List (String × Nat)) : Net × Nat × List CreationStatus :=
  nodes.foldl
    (fun acc n =>
      let data := n.data
      let bid := (dget data "busId" (.str "")).pyStr
      if bid = "" ∨ (busmap.lookup bid).isNone then
        (acc.1, acc.2.1, acc.2.2
          ++ [⟨n.id, "sgen", false, some ("busId '" ++ bid ++ "' not found or invalid")⟩])
      else
        let b := (busmap.lookup bid).getD 0
        match (do
          let p ← pyFloat (dget data "p_mw" (.num (.fin 1)))
          let q ← pyFloat (dget data "q_mvar" (.num (.fin 0)))
          pure (p, q) : Option (JNum × JNum)) with
        | none =>
            (acc.1, acc.2.1, acc.2.2
              ++ [⟨n.id, "sgen", false, some "float() conversion failed"⟩])
        | some (p, q) =>
            ({ acc.1 with sgen := acc.1.sgen ++
                [⟨b, p, q, (dget data "name" (.str "SGen")).pyStr,
                  (dget data "in_service" (.bool true)).truthy,
                  (dget data "controllable" (.bool true)).truthy⟩] },
             acc.2.1 + 1, acc.2.2))
    (net, 0, [])

/-- `_add_motors`. -/
def add_motors (net : Net) (nodes : List RFNode)
    (busmap : List (String × Nat)) : Net × Nat × List CreationStatus :=
  nodes.foldl
    (fun acc n =>
      let data := n.data
      let bid := (dget data "busId" (.str "")).pyStr
      if bid = "" ∨ (busmap.lookup bid).isNone then
        (acc.1, acc.2.1, acc.2.2
          ++ [⟨n.id, "motor", false, some ("busId '" ++ bid ++ "' not found or invalid")⟩])
      else
        let b := (busmap.lookup bid).getD 0
        match (do
          let pn ← pyFloat (dget data "pn_mech_mw" (.num (.fin 1)))
          let cp ← pyFloat (dget data "cos_phi" (.num (.fin (85 / 100))))
          let eff ← pyFloat (dget data "efficiency" (.num (.fin (9 / 10))))
          let lp ← pyFloat (dget data "loading_percent" (.num (.fin 100)))
          pure (pn, cp, eff, lp) : Option (JNum × JNum × JNum × JNum)) with
        | none =>
            (acc.1, acc.2.1, acc.2.2
              ++ [⟨n.id, "motor", false, some "float() conversion failed"⟩])
        | some (pn, cp, eff, lp) =>
            ({ acc.1 with motor := acc.1.motor ++
                [⟨b, pn, cp, eff, lp, (dget data "name" (.str "Motor")).pyStr,
                  (dget data "in_service" (.bool true)).truthy⟩] },
             acc.2.1 + 1, acc.2.2))
    (net, 0, [])

/-- `_add_shunts`. -/
def add_shunts (net : Net) (nodes : List RFNode)
    (busmap : List (String × Nat)) : Net × Nat × List CreationStatus :=
  nodes.foldl
    (fun acc n =>
      let data := n.data
      let bid := (dget data "busId" (.str "")).pyStr
      if bid = "" ∨ (busmap.lookup bid).isNone then
        (acc.1, acc.2.1, acc.2.2
          ++ [⟨n.id, "shunt", false, some ("busId '" ++ bid ++ "' not found or invalid")⟩])
      else
        let b := (busmap.lookup bid).getD 0
        match (do
          let p ← pyFloat (dget data "p_mw" (.num (.fin 0)))
          let q ← pyFloat (dget data "q_mvar" (.num (.fin 0)))
          let vn ← pyFloat (dget data "vn_kv" (.num (.fin 22)))
          let st ← optFloatField data "step"
          let mst ← optFloatField data "max_step"
          pure (p, q, vn, st, mst) :
            Option (JNum × JNum × JNum × Option JNum × Option JNum)) with
        | none =>
            (acc.1, acc.2.1, acc.2.2
              ++ [⟨n.id, "shunt", false, some "float() conversion failed"⟩])
        | some (p, q, vn, st, mst) =>
            ({ acc.1 with shunt := acc.1.shunt ++
                [⟨b, p, q, vn, st, mst, (dget data "name" (.str "Shunt")).pyStr,
                  (dget data "in_service" (.bool true)).truthy⟩] },
             acc.2.1 + 1, acc.2.2))
    (net, 0, [])

/-- `_add_storages`. -/
def add_storages (net : Net) (nodes : List RFNode)
    (busmap : List (String × Nat)) : Net × Nat × List CreationStatus :=
  nodes.foldl
    (fun acc n =>
      let data := n.data
      let bid := (dget data "busId" (.str "")).pyStr
      if bid = "" ∨ (busmap.lookup bid).isNone then
        (acc.1, acc.2.1, acc.2.2
          ++ [⟨n.id, "storage", false, some ("busId '" ++ bid ++ "' not found or invalid")⟩])
      else
        let b := (busmap.lookup bid).getD 0
        match (do
          let p ← pyFloat (dget data "p_mw" (.num (.fin 0)))
          let q ← pyFloat (dget data "q_mvar" (.num (.fin 0)))
          let mxe ← pyFloat (dget data "max_e_mwh" (.num (.fin 10)))
          let mne ← pyFloat (dget data "min_e_mwh" (.num (.fin 0)))
          let mxp ← pyFloat (dget data "max_p_mw" (.num (.fin 5)))
          let mnp ← pyFloat (dget data "min_p_mw" (.num (.fin (-5))))
          let soc ← pyFloat (dget data "soc_percent" (.num (.fin 50)))
          pure (p, q, mxe, mne, mxp, mnp, soc) :
            Option (JNum × JNum × JNum × JNum × JNum × JNum × JNum)) with
        | none =>
            (acc.1, acc.2.1, acc.2.2
              ++ [⟨n.id, "storage", false, some "float() conversion failed"⟩])
        | some (p, q, mxe, mne, mxp, mnp, soc) =>
            ({ acc.1 with storage := acc.1.storage ++
                [⟨b, p, q, mxe, mne, mxp, mnp, soc,
                  (dget data "name" (.str "Storage")).pyStr,
                  (dget data "in_service" (.bool true)).truthy⟩] },
             acc.2.1 + 1, acc.2.2))
    (net, 0, [])

/-- `_add_transformers`: returns the created (index, node id) pairs (the
source also carries the data dict, unused downstream) and the failures. -/
def add_transformers (lib : StdLib) (net : Net) (nodes : List RFNode)
    (busmap : List (String × Nat)) :
    Net × List (Nat × String) × List CreationStatus :=
  nodes.foldl
    (fun acc n =>
      let data := n.data
      let hv := (dget data "hvBusId" (.str "")).pyStr
      let lv := (dget data "lvBusId" (.str "")).pyStr
      if hv = "" ∨ lv = "" then
        (acc.1, acc.2.1, acc.2.2
          ++ [⟨n.id, "transformer", false, some "hvBusId or lvBusId missing"⟩])
      else if (busmap.lookup hv).isNone ∨ (busmap.lookup lv).isNone then
        (acc.1, acc.2.1, acc.2.2
          ++ [⟨n.id, "transformer", false,
              some ("hvBusId '" ++ hv ++ "' or lvBusId '" ++ lv ++ "' not found")⟩])
      else
        let stdt := (dget data "std_type" (.str "")).pyStr
        if stdt = "" then
          (acc.1, acc.2.1, acc.2.2
            ++ [⟨n.id, "transformer", false, some "std_type is required"⟩])
        else if ¬ lib.trafoStd stdt then
          (acc.1, acc.2.1, acc.2.2
            ++ [⟨n.id, "transformer", false,
                some ("unknown standard type '" ++ stdt ++ "'")⟩])
        else
          let idx := acc.1.trafo.length
          ({ acc.1 with trafo := acc.1.trafo ++
              [⟨(busmap.lookup hv).getD 0, (busmap.lookup lv).getD 0, stdt,
                (dget data "name" (.str "Transformer")).pyStr,
                (dget data "in_service" (.bool true)).truthy⟩] },
           acc.2.1 ++ [(idx, n.id)], acc.2.2))
    (net, [], [])

/-- `_add_trafo3w`. -/
def add_trafo3w (lib : StdLib) (net : Net) (nodes : List RFNode)
    (busmap : List (String × Nat)) : Net × Nat × List CreationStatus :=
  nodes.foldl
    (fun acc n =>
      let data := n.data
      let hv := (dget data "hvBusId" (.str "")).pyStr
      let mv := (dget data "mvBusId" (.str "")).pyStr
      let lv := (dget data "lvBusId" (.str "")).pyStr
      if hv = "" ∨ mv = "" ∨ lv = "" then
        (acc.1, acc.2.1, acc.2.2
          ++ [⟨n.id, "trafo3w", false, some "hvBusId, mvBusId, or lvBusId missing"⟩])
      else if (busmap.lookup hv).isNone ∨ (busmap.lookup mv).isNone
          ∨ (busmap.lookup lv).isNone then
        (acc.1, acc.2.1, acc.2.2
          ++ [⟨n.id, "trafo3w", false, some "One or more bus IDs not found"⟩])
      else
        let stdt := (dget data "std_type" (.str "")).pyStr
        if stdt = "" then
          (acc.1, acc.2.1, acc.2.2
            ++ [⟨n.id, "trafo3w", false, some "std_type is required"⟩])
        else if ¬ lib.trafo3wStd stdt then
          (acc.1, acc.2.1, acc.2.2
            ++ [⟨n.id, "trafo3w", false,
                some ("unknown standard type '" ++ stdt ++ "'")⟩])
        else
          ({ acc.1 with trafo3w := acc.1.trafo3w ++
              [⟨(busmap.lookup hv).getD 0, (busmap.lookup mv).getD 0,
                (busmap.lookup lv).getD 0, stdt,
                (dget data "name" (.str "Trafo3W")).pyStr,
                (dget data "in_service" (.bool true)).truthy⟩] },
           acc.2.1 + 1, acc.2.2))
    (net, 0, [])

/-- `_add_switches`.  `pp.create_switch` additionally validates that the bus
is an endpoint of the referenced line/transformer and raises otherwise; that
exception is caught by the per-element try block. -/
def add_switches (net : Net) (nodes : List RFNode)
    (busmap : List (String × Nat)) (lineMap : List (String × Nat))
    (trafoMap : List (String × Nat)) : Net × Nat × List CreationStatus :=
  nodes.foldl
    (fun acc n =>
      let data := n.data
      let bid := (dget data "busId" (.str "")).pyStr
      let eid := (dget data "elementId" (.str "")).pyStr
      let et := (dget data "elementType" (.str "line")).pyStr
      if bid = "" ∨ (busmap.lookup bid).isNone then
        (acc.1, acc.2.1, acc.2.2
          ++ [⟨n.id, "switch", false, some ("busId '" ++ bid ++ "' not found or invalid")⟩])
      else
        let busIdx := (busmap.lookup bid).getD 0
        let resolved : Option (Nat × String) :=
          if et = "line" then (lineMap.lookup eid).map (fun i => (i, "l"))
          else if et = "trafo" then (trafoMap.lookup eid).map (fun i => (i, "t"))
          else if et = "bus" then (busmap.lookup eid).map (fun i => (i, "b"))
          else none
        match resolved with
        | none =>
            let msg :=
              if et = "line" then "elementId '" ++ eid ++ "' (line) not found"
              else if et = "trafo" then "elementId '" ++ eid ++ "' (trafo) not found"
              else if et = "bus" then "elementId '" ++ eid ++ "' (bus) not found"
              else "Invalid elementType '" ++ et ++ "'"
            (acc.1, acc.2.1, acc.2.2 ++ [⟨n.id, "switch", false, some msg⟩])
        | some (elIdx, etc) =>
            let connected : Bool :=
              if etc = "l" then
                match acc.1.line.get? elIdx with
                | some lr => busIdx = lr.from_bus ∨ busIdx = lr.to_bus
                | none => false
              else if etc = "t" then
                match acc.1.trafo.get? elIdx with
                | some tr => busIdx = tr.hv_bus ∨ busIdx = tr.lv_bus
                | none => false
              else true
            match (do
              let z ← optFloatField data "z_ohm"
              pure z : Option (Option JNum)) with
            | none =>
                (acc.1, acc.2.1, acc.2.2
                  ++ [⟨n.id, "switch", false, some "float() conversion failed"⟩])
            | some z =>
                if ¬ connected then
                  (acc.1, acc.2.1, acc.2.2
                    ++ [⟨n.id, "switch", false,
                        some "bus not connected to the switched element"⟩])
                else
                  let tval := dget data "type" Value.null
                  ({ acc.1 with switch := acc.1.switch ++
                      [⟨busIdx, elIdx, etc,
                        (dget data "closed" (.bool true)).truthy,
                        (if tval.truthy then some tval.pyStr else none), z,
                        (dget data "name" (.str "Switch")).pyStr,
                        (dget data "in_service" (.bool true)).truthy⟩] },
                   acc.2.1 + 1, acc.2.2))
    (net, 0, [])

/-- `_ensure_slack`: the post-assembly slack-presence check, an error string
when the assembled model has no ext_grid row. -/
def ensure_slack (net : Net) : Except String Unit :=
  if net.ext_grid.isEmpty then
    .error "No ext_grid found. At least one ext_grid is required."
  else .ok ()

/-- Modelled from the spec: `simulate_from_reactflow` calls
`network_creation._add_lines_from_nodes`, which is absent from the source
tree (only its caller is present).  Per spec section 4.2, the line-creation
routine resolves the referenced bus ids through the bus registry (failure
recorded per element, batch continues), selects the named-standard-type style
or the explicit four-parameter style by presence of a non-empty standard-type
name, applies the shared defaults (length 1 km, parallel 1, derating 1.0,
in-service true), and records each new internal index.  The bus-reference
field names fromBusId / toBusId follow the repository's tests; the body
mirrors `_add_lines_from_edges`, the in-tree variant of the same routine.
Returns (net, created (index, node id) pairs, node id → index map,
failures). -/
def add_lines_from_nodes (lib : StdLib) (net : Net) (nodes : List RFNode)
    (busmap : List (String × Nat)) :
    Net × List (Nat × String) × List (String × Nat) × List CreationStatus :=
  nodes.foldl
    (fun acc n =>
      let data := n.data
      let src := (dget data "fromBusId" (.str "")).pyStr
      let tgt := (dget data "toBusId" (.str "")).pyStr
      if src = "" ∨ tgt = "" then
        (acc.1, acc.2.1, acc.2.2.1, acc.2.2.2
          ++ [⟨n.id, "line", false, some "fromBusId or toBusId missing"⟩])
      else if (busmap.lookup src).isNone ∨ (busmap.lookup tgt).isNone then
        (acc.1, acc.2.1, acc.2.2.1, acc.2.2.2
          ++ [⟨n.id, "line", false,
              some ("fromBusId '" ++ src ++ "' or toBusId '" ++ tgt ++ "' bus not found")⟩])
      else if src = tgt then
        (acc.1, acc.2.1, acc.2.2.1, acc.2.2.2
          ++ [⟨n.id, "line", false, some "fromBusId and toBusId cannot be the same"⟩])
      else
        let name0 := (dget data "name" (.str "")).pyStr
        let name := if name0 = "" then none else some name0
        let lengthKm := toFloatD (dget data "length_km" Value.null) 1
        let insv := (dget data "in_service" (.bool true)).truthy
        let par := toIntD (dget data "parallel" Value.null) 1
        let df := toFloatD (dget data "df" Value.null) 1
        if jLe lengthKm (.fin 0) then
          (acc.1, acc.2.1, acc.2.2.1, acc.2.2.2
            ++ [⟨n.id, "line", false, some "length_km must be > 0"⟩])
        else
          let fromBus := (busmap.lookup src).getD 0
          let toBus := (busmap.lookup tgt).getD 0
          let stdt :=
            match dget data "std_type" Value.null with
            | Value.null => ""
            | v => (v.pyStr).trim
          if stdt ≠ "" then
            if lib.lineStd stdt then
              let idx := acc.1.line.length
              ({ acc.1 with line := acc.1.line ++
                  [⟨fromBus, toBus, lengthKm, some stdt, none, none, none, none,
                    name, par, df, insv⟩] },
               acc.2.1 ++ [(idx, n.id)], aset acc.2.2.1 n.id idx, acc.2.2.2)
            else
              (acc.1, acc.2.1, acc.2.2.1, acc.2.2.2
                ++ [⟨n.id, "line", false,
                    some ("unknown standard type '" ++ stdt ++ "'")⟩])
          else
            let r := dget data "r_ohm_per_km" Value.null
            let x := dget data "x_ohm_per_km" Value.null
            let c := dget data "c_nf_per_km" Value.null
            let mi := dget data "max_i_ka" Value.null
            match r, x, c, mi with
            | .null, _, _, _ =>
                (acc.1, acc.2.1, acc.2.2.1, acc.2.2.2
                  ++ [⟨n.id, "line", false, some "Missing line parameters"⟩])
            | _, .null, _, _ =>
                (acc.1, acc.2.1, acc.2.2.1, acc.2.2.2
                  ++ [⟨n.id, "line", false, some "Missing line parameters"⟩])
            | _, _, .null, _ =>
                (acc.1, acc.2.1, acc.2.2.1, acc.2.2.2
                  ++ [⟨n.id, "line", false, some "Missing line parameters"⟩])
            | _, _, _, .null =>
                (acc.1, acc.2.1, acc.2.2.1, acc.2.2.2
                  ++ [⟨n.id, "line", false, some "Missing line parameters"⟩])
            | rv, xv, cv, miv =>
                let idx := acc.1.line.length
                ({ acc.1 with line := acc.1.line ++
                    [⟨fromBus, toBus, lengthKm, none,
                      some (toFloatD rv 0), some (toFloatD xv 0),
                      some (toFloatD cv 0), some (toFloatD miv 0),
                      name, par, df, insv⟩] },
                 acc.2.1 ++ [(idx, n.id)], aset acc.2.2.1 n.id idx, acc.2.2.2))
    (net, [], [], [])

/-! ### Float sanitization (`_sanitize_json_floats`) -/

mutual

/-- `_sanitize_json_floats`: replace every non-finite float by null,
recursing through lists and dicts; every other value passes through. -/
def sanitize_json_floats : Value → Value
  | .null => .null
  | .bool b => .bool b
  | .num x => if x.isFinite then .num x else .null
  | .str s => .str s
  | .arr xs => .arr (sanitizeList xs)
  | .dict kvs => .dict (sanitizePairs kvs)

def sanitizeList : List Value → List Value
  | [] => []
  | v :: vs => sanitize_json_floats v :: sanitizeList vs

def sanitizePairs : List (String × Value) → List (String × Value)
  | [] => []
  | kv :: vs => (kv.1, sanitize_json_floats kv.2) :: sanitizePairs vs

end

mutual

/-- Whether every float inside a value is finite (nulls, bools and strings
are vacuously fine). -/
def valueFinite : Value → Bool
  | .null => true
  | .bool _ => true
  | .num x => x.isFinite
  | .str _ => true
  | .arr xs => listFinite xs
  | .dict kvs => pairsFinite kvs

def listFinite : List Value → Bool
  | [] => true
  | v :: vs => valueFinite v && listFinite vs

def pairsFinite : List (String × Value) → Bool
  | [] => true
  | kv :: vs => valueFinite kv.2 && pairsFinite vs

end

/-! ### The external solver, as an oracle -/

/-- The per-category result tables a solved pandapower model carries, each a
map from internal index to a column row.  The oracle may put any values,
non-finite floats included, into the rows. -/
structure SolverTables where
  res_bus : List (Nat × List (String × Value)) := []
  res_line : List (Nat × List (String × Value)) := []
  res_trafo : List (Nat × List (String × Value)) := []
  res_trafo3w : List (Nat × List (String × Value)) := []
  res_load : List (Nat × List (String × Value)) := []
  res_gen : List (Nat × List (String × Value)) := []
  res_sgen : List (Nat × List (String × Value)) := []
  res_motor : List (Nat × List (String × Value)) := []
  res_shunt : List (Nat × List (String × Value)) := []
  res_storage : List (Nat × List (String × Value)) := []
  res_ext_grid : List (Nat × List (String × Value)) := []
  res_switch : List (Nat × List (String × Value)) := []

/-- The outcome of `pp.runpp`: success, the expected LoadflowNotConverged
exception, or any other exception. -/
inductive SolverOutcome where
  | converged (tables : SolverTables)
  | notConverged (detail : String)
  | failed (detail : String)

/-! ### Result collection (app/helper/result_collection.py) -/

/-- A collected optional float as a JSON value. -/
def optJ : Option JNum → Value
  | none => .null
  | some x => .num x

/-- One collected field: `_to_optional_float(row.get(key, default))`. -/
def resFld (row : List (String × Value)) (k : String) (d : ℚ) :
    String × Value :=
  (k, optJ (to_optional_float (dget row k (.num (.fin d)))))

/-- The per-category collection loop: walk the external ids, look the
internal index up, then the solved row, and emit the selected fields. -/
def collectRows (ids : List String) (idxMap : List (String × Nat))
    (table : List (Nat × List (String × Value)))
    (fieldsOf : List (String × Value) → List (String × Value)) :
    List (String × Value) :=
  ids.foldl
    (fun acc nid =>
      match idxMap.lookup nid with
      | none => acc
      | some i =>
          match table.lookup i with
          | none => acc
          | some row => acc ++ [(nid, Value.dict (fieldsOf row))])
    []

/-- One category of `_collect_simulation_results` (the
`hasattr ... and len(...) > 0` guard leaves the category empty). -/
def collectCat (table : List (Nat × List (String × Value))) (ids : List String)
    (idxMap : List (String × Nat))
    (fieldsOf : List (String × Value) → List (String × Value)) : Value :=
  if table.isEmpty then Value.dict []
  else Value.dict (collectRows ids idxMap table fieldsOf)

/-- `_collect_simulation_results`: the nine fixed categories; all empty when
the run did not converge. -/
def collect_simulation_results (resT : SolverTables) (converged : Bool)
    (loadIds genIds sgenIds motorIds shuntIds storageIds lineIds trafoIds
      trafo3wIds : List String)
    (loadMap genMap sgenMap motorMap shuntMap storageMap lineMap trafoMap
      trafo3wMap : List (String × Nat)) : List (String × Value) :=
  if ¬ converged then
    [("loads", .dict []), ("gens", .dict []), ("sgens", .dict []),
     ("motors", .dict []), ("shunts", .dict []), ("storages", .dict []),
     ("lines", .dict []), ("trafos", .dict []), ("trafo3ws", .dict [])]
  else
    [("loads", collectCat resT.res_load loadIds loadMap fun row =>
        [resFld row "p_mw" 0, resFld row "q_mvar" 0]),
     ("gens", collectCat resT.res_gen genIds genMap fun row =>
        [resFld row "p_mw" 0, resFld row "q_mvar" 0, resFld row "vm_pu" 1]),
     ("sgens", collectCat resT.res_sgen sgenIds sgenMap fun row =>
        [resFld row "p_mw" 0, resFld row "q_mvar" 0]),
     ("motors", collectCat resT.res_motor motorIds motorMap fun row =>
        [resFld row "p_mw" 0, resFld row "q_mvar" 0]),
     ("shunts", collectCat resT.res_shunt shuntIds shuntMap fun row =>
        [resFld row "p_mw" 0, resFld row "q_mvar" 0]),
     ("storages", collectCat resT.res_storage storageIds storageMap fun row =>
        [resFld row "p_mw" 0, resFld row "q_mvar" 0]),
     ("lines", collectCat resT.res_line lineIds lineMap fun row =>
        [resFld row "p_from_mw" 0, resFld row "q_from_mvar" 0,
         resFld row "p_to_mw" 0, resFld row "q_to_mvar" 0,
         resFld row "i_from_ka" 0, resFld row "i_to_ka" 0,
         resFld row "loading_percent" 0]),
     ("trafos", collectCat resT.res_trafo trafoIds trafoMap fun row =>
        [resFld row "p_hv_mw" 0, resFld row "q_hv_mvar" 0,
         resFld row "p_lv_mw" 0, resFld row "q_lv_mvar" 0,
         resFld row "i_hv_ka" 0, resFld row "i_lv_ka" 0,
         resFld row "loading_percent" 0]),
     ("trafo3ws", collectCat resT.res_trafo3w trafo3wIds trafo3wMap fun row =>
        [resFld row "p_hv_mw" 0, resFld row "q_hv_mvar" 0,
         resFld row "p_mv_mw" 0, resFld row "q_mv_mvar" 0,
         resFld row "p_lv_mw" 0, resFld row "q_lv_mvar" 0,
         resFld row "i_hv_ka" 0, resFld row "i_mv_ka" 0,
         resFld row "i_lv_ka" 0, resFld row "loading_percent" 0])]

/-! ### Network export (app/helper/net_export.py) -/

/-- A solved-table row with its `reset_index()` column. -/
def indexedRow (p : Nat × List (String × Value)) : Value :=
  Value.dict (("index", Value.num (.fin p.1)) :: p.2)

/-- `_df_to_records` on a result table. -/
def dfRecords (rows : List (Nat × List (String × Value))) : List Value :=
  sanitizeList (rows.map indexedRow)

/-- Serializations of the element tables, restricted to the columns the
service sets (DataFrame defaults of the external library are out of scope). -/
def busTableRecords (net : Net) : List Value :=
  sanitizeList (net.bus.enum.map fun p =>
    Value.dict [("index", .num (.fin p.1)), ("name", .str p.2.name),
      ("vn_kv", .num p.2.vn_kv), ("in_service", .bool p.2.in_service)])

def lineTableRecords (net : Net) : List Value :=
  sanitizeList (net.line.enum.map fun p =>
    Value.dict [("index", .num (.fin p.1)),
      ("from_bus", .num (.fin p.2.from_bus)), ("to_bus", .num (.fin p.2.to_bus)),
      ("length_km", .num p.2.length_km),
      ("std_type", match p.2.std_type with | some s => .str s | none => .null),
      ("parallel", .num (.fin p.2.parallel)), ("df", .num p.2.df),
      ("in_service", .bool p.2.in_service)])

def trafoTableRecords (net : Net) : List Value :=
  sanitizeList (net.trafo.enum.map fun p =>
    Value.dict [("index", .num (.fin p.1)),
      ("hv_bus", .num (.fin p.2.hv_bus)), ("lv_bus", .num (.fin p.2.lv_bus)),
      ("std_type", .str p.2.std_type), ("name", .str p.2.name),
      ("in_service", .bool p.2.in_service)])

def trafo3wTableRecords (net : Net) : List Value :=
  sanitizeList (net.trafo3w.enum.map fun p =>
    Value.dict [("index", .num (.fin p.1)),
      ("hv_bus", .num (.fin p.2.hv_bus)), ("mv_bus", .num (.fin p.2.mv_bus)),
      ("lv_bus", .num (.fin p.2.lv_bus)), ("std_type", .str p.2.std_type),
      ("name", .str p.2.name), ("in_service", .bool p.2.in_service)])

def loadTableRecords (net : Net) : List Value :=
  sanitizeList (net.load.enum.map fun p =>
    Value.dict [("index", .num (.fin p.1)), ("bus", .num (.fin p.2.bus)),
      ("p_mw", .num p.2.p_mw), ("q_mvar", .num p.2.q_mvar),
      ("scaling", .num p.2.scaling), ("name", .str p.2.name),
      ("in_service", .bool p.2.in_service)])

def genTableRecords (net : Net) : List Value :=
  sanitizeList (net.gen.enum.map fun p =>
    Value.dict [("index", .num (.fin p.1)), ("bus", .num (.fin p.2.bus)),
      ("p_mw", .num p.2.p_mw), ("vm_pu", .num p.2.vm_pu),
      ("min_q_mvar", optJ p.2.min_q_mvar), ("max_q_mvar", optJ p.2.max_q_mvar),
      ("name", .str p.2.name), ("in_service", .bool p.2.in_service)])

def sgenTableRecords (net : Net) : List Value :=
  sanitizeList (net.sgen.enum.map fun p =>
    Value.dict [("index", .num (.fin p.1)), ("bus", .num (.fin p.2.bus)),
      ("p_mw", .num p.2.p_mw), ("q_mvar", .num p.2.q_mvar),
      ("name", .str p.2.name), ("in_service", .bool p.2.in_service)])

def extGridTableRecords (net : Net) : List Value :=
  sanitizeList (net.ext_grid.enum.map fun p =>
    Value.dict [("index", .num (.fin p.1)), ("bus", .num (.fin p.2.bus)),
      ("vm_pu", .num p.2.vm_pu), ("va_degree", .num p.2.va_degree),
      ("name", .str p.2.name), ("in_service", .bool p.2.in_service)])

def switchTableRecords (net : Net) : List Value :=
  sanitizeList (net.switch.enum.map fun p =>
    Value.dict [("index", .num (.fin p.1)), ("bus", .num (.fin p.2.bus)),
      ("element", .num (.fin p.2.element)), ("et", .str p.2.et),
      ("closed", .bool p.2.closed), ("name", .str p.2.name),
      ("in_service", .bool p.2.in_service)])

def shuntTableRecords (net : Net) : List Value :=
  sanitizeList (net.shunt.enum.map fun p =>
    Value.dict [("index", .num (.fin p.1)), ("bus", .num (.fin p.2.bus)),
      ("p_mw", .num p.2.p_mw), ("q_mvar", .num p.2.q_mvar),
      ("vn_kv", .num p.2.vn_kv), ("name", .str p.2.name),
      ("in_service", .bool p.2.in_service)])

def motorTableRecords (net : Net) : List Value :=
  sanitizeList (net.motor.enum.map fun p =>
    Value.dict [("index", .num (.fin p.1)), ("bus", .num (.fin p.2.bus)),
      ("pn_mech_mw", .num p.2.pn_mech_mw), ("cos_phi", .num p.2.cos_phi),
      ("efficiency", .num p.2.efficiency),
      ("loading_percent", .num p.2.loading_percent), ("name", .str p.2.name),
      ("in_service", .bool p.2.in_service)])

def storageTableRecords (net : Net) : List Value :=
  sanitizeList (net.storage.enum.map fun p =>
    Value.dict [("index", .num (.fin p.1)), ("bus", .num (.fin p.2.bus)),
      ("p_mw", .num p.2.p_mw), ("q_mvar", .num p.2.q_mvar),
      ("max_e_mwh", .num p.2.max_e_mwh), ("soc_percent", .num p.2.soc_percent),
      ("name", .str p.2.name), ("in_service", .bool p.2.in_service)])

/-- The element tables in the export's fixed order. -/
def exportTables (net : Net) : List (String × List Value) :=
  [("bus", busTableRecords net), ("line", lineTableRecords net),
   ("trafo", trafoTableRecords net), ("trafo3w", trafo3wTableRecords net),
   ("load", loadTableRecords net), ("gen", genTableRecords net),
   ("sgen", sgenTableRecords net), ("ext_grid", extGridTableRecords net),
   ("switch", switchTableRecords net), ("shunt", shuntTableRecords net),
   ("motor", motorTableRecords net), ("storage", storageTableRecords net)]

/-- The result tables in the export's fixed order. -/
def exportResTables (resT : SolverTables) : List (String × List Value) :=
  [("res_bus", dfRecords resT.res_bus), ("res_line", dfRecords resT.res_line),
   ("res_trafo", dfRecords resT.res_trafo),
   ("res_trafo3w", dfRecords resT.res_trafo3w),
   ("res_load", dfRecords resT.res_load), ("res_gen", dfRecords resT.res_gen),
   ("res_sgen", dfRecords resT.res_sgen),
   ("res_ext_grid", dfRecords resT.res_ext_grid),
   ("res_switch", dfRecords resT.res_switch),
   ("res_shunt", dfRecords resT.res_shunt),
   ("res_motor", dfRecords resT.res_motor),
   ("res_storage", dfRecords resT.res_storage)]

/-- The element counts of the summary export, in the source's order. -/
def exportCounts (net : Net) : List (String × Value) :=
  [("bus", .num (.fin net.bus.length)), ("line", .num (.fin net.line.length)),
   ("trafo", .num (.fin net.trafo.length)),
   ("trafo3w", .num (.fin net.trafo3w.length)),
   ("load", .num (.fin net.load.length)), ("gen", .num (.fin net.gen.length)),
   ("sgen", .num (.fin net.sgen.length)),
   ("ext_grid", .num (.fin net.ext_grid.length)),
   ("switch", .num (.fin net.switch.length)),
   ("shunt", .num (.fin net.shunt.length)),
   ("motor", .num (.fin net.motor.length)),
   ("storage", .num (.fin net.storage.length))]

/-- `export_network`: absent for "none", meta-and-counts for "summary", full
tables otherwise. -/
def export_network (net : Net) (resT : SolverTables) (mode : String) :
    Option Value :=
  if mode = "none" then none
  else
    let metaBase : List (String × Value) :=
      [("converged", .bool net.converged), ("sn_mva", .num net.sn_mva),
       ("f_hz", .num net.f_hz)]
    if mode = "summary" then
      some (Value.dict
        [("meta", sanitize_json_floats (Value.dict
           (metaBase ++ [("counts", Value.dict (exportCounts net))])))])
    else
      let tables := exportTables net
      let counts : List (String × Value) :=
        tables.map fun p => (p.1, Value.num (.fin p.2.length))
      some (Value.dict
        [("meta", sanitize_json_floats (Value.dict
           (metaBase ++ [("counts", Value.dict counts)]))),
         ("tables", Value.dict (tables.map fun p => (p.1, Value.arr p.2))),
         ("results", Value.dict
           ((exportResTables resT).map fun p => (p.1, Value.arr p.2)))])

/-! ### The simulation pipeline (app/services/simulate.py) -/

/-- The index-map-and-status loop simulate.py runs after each creation batch:
walk the nodes of the category in order, skip the failed ones, and pair the
remaining ones with consecutive table indices while recording a success
status (`<category>_count_before` is the table length before the batch, the
bound the table length after it). -/
def seqIndexLoop (etype : String) (ids : List String) (failedIds : List String)
    (start total : Nat) : List (String × Nat) × List CreationStatus :=
  let r := ids.foldl
    (fun (acc : List (String × Nat) × List CreationStatus × Nat) nid =>
      if failedIds.contains nid then acc
      else if acc.2.2 < total then
        (aset acc.1 nid acc.2.2, acc.2.1 ++ [(⟨nid, etype, true, none⟩ : CreationStatus)],
         acc.2.2 + 1)
      else acc)
    ([], [], start)
  (r.1, r.2.1)

/-- `element_status[st.element_id] = st` for a batch of statuses. -/
def applyStatuses (estat : List (String × CreationStatus))
    (sts : List CreationStatus) : List (String × CreationStatus) :=
  sts.foldl (fun m st => aset m st.element_id st) estat

/-- Success statuses for the categories simulate.py tracks by "not among the
failures" (ext_grids and switches). -/
def successStatuses (etype : String) (nodes : List RFNode)
    (failedIds : List String) : List CreationStatus :=
  nodes.filterMap fun n =>
    if failedIds.contains n.id then none
    else some ⟨n.id, etype, true, none⟩

/-- The "at least one bus" validation error. -/
def noBusError : VError :=
  ⟨"", "network", some "bus", "At least one bus is required"⟩

/-- The catch-all error of the top-level exception handler. -/
def catchAllError (msg : String) : VError :=
  ⟨"", "network", some "", "Lỗi khi tạo network: " ++ msg⟩

/-- The common settings text of the powerflow diagnostics. -/
def pfSettingsText (s : RunSettings) : String :=
  "algorithm=" ++ s.algorithm ++ ", max_iter=" ++ toString s.max_iter
    ++ ", tolerance_mva=" ++ jnumStr s.tolerance_mva ++ ". "

/-- The LoadflowNotConverged diagnostic. -/
def pfNotConvergedError (s : RunSettings) (detail : String) : VError :=
  ⟨"", "network", some "runpp",
    "Power flow did not converge. " ++ pfSettingsText s ++ "detail=" ++ detail⟩

/-- The net.converged hint appended after LoadflowNotConverged (pandapower
sets the flag to False before raising). -/
def pfConvergedFlagError : VError :=
  ⟨"", "network", some "converged", "pandapower net.converged is False"⟩

/-- The diagnostic for an unexpected solver exception. -/
def pfUnexpectedError (s : RunSettings) (detail : String) : VError :=
  ⟨"", "network", some "runpp",
    "Power flow failed unexpectedly. " ++ pfSettingsText s ++ "detail=" ++ detail⟩

/-- `_build_error_response`. -/
def build_error_response (errors : List (String × List VError))
    (estat : List (String × CreationStatus)) (warnings : List String)
    (slack : String) : SimulateResponse :=
  { summary := ⟨false, 0, slack⟩
    bus_by_id := []
    res_bus := []
    warnings := warnings
    errors := errors
    element_status := estat
    results := []
    network := none }

/-- A solved bus row projected onto the response's BusResult. -/
def busResultOfRow (row : List (String × Value)) : BusResult :=
  { vm_pu := to_optional_float (dget row "vm_pu" (.num (.fin 1)))
    va_degree := to_optional_float (dget row "va_degree" (.num (.fin 0)))
    p_mw := to_optional_float (dget row "p_mw" (.num (.fin 0)))
    q_mvar := to_optional_float (dget row "q_mvar" (.num (.fin 0))) }

/-- The element-status seed of the validation early return: one failure per
error with a non-empty element id, first error wins (`setdefault`). -/
def statusSeed (verrs : List VError) : List (String × CreationStatus) :=
  verrs.foldl
    (fun m err =>
      if err.element_id = "" then m
      else asetdefault m err.element_id
        ⟨err.element_id, err.element_type, false, some err.message⟩)
    []

/-- The post-solve violations pass: bus voltage limits, line and transformer
overloads, generator reactive-power limits.  Returns the extended warnings
and the downgraded element-status map. -/
def violationsPass (bus_nodes gen_nodes : List RFNode)
    (bus_by_id : List (String × BusResult))
    (lineMap trafoMap genMap : List (String × Nat)) (resT : SolverTables)
    (warnings : List String) (estat : List (String × CreationStatus)) :
    List String × List (String × CreationStatus) :=
  let busData := bus_nodes.foldl
    (fun m n => if n.id = "" then m else aset m n.id n.data) []
  let wb := bus_by_id.foldl
    (fun (acc : List String × List (String × CreationStatus)) p =>
      match p.2.vm_pu with
      | none => acc
      | some vm =>
          let data := (busData.lookup p.1).getD []
          let minv := pyOrFloat
            (to_optional_float (dget data "min_vm_pu" (.num (.fin (95 / 100)))))
            (95 / 100)
          let maxv := pyOrFloat
            (to_optional_float (dget data "max_vm_pu" (.num (.fin (105 / 100)))))
            (105 / 100)
          if jLt vm minv ∨ jGt vm maxv then
            let msg := "Voltage violation at bus '" ++ p.1 ++ "': vm_pu="
              ++ jnumStr vm ++ " not in [" ++ jnumStr minv ++ ", "
              ++ jnumStr maxv ++ "]"
            (acc.1 ++ [msg], aset acc.2 p.1 ⟨p.1, "bus", false, some msg⟩)
          else acc)
    (warnings, estat)
  let wl :=
    if resT.res_line.isEmpty then wb
    else
      lineMap.foldl
        (fun (acc : List String × List (String × CreationStatus)) p =>
          match resT.res_line.lookup p.2 with
          | none => acc
          | some row =>
              match to_optional_float (dget row "loading_percent" Value.null) with
              | none => acc
              | some l =>
                  if jGt l (.fin 100) then
                    let msg := "Line overload '" ++ p.1
                      ++ "': loading_percent=" ++ jnumStr l ++ " > 100"
                    (acc.1 ++ [msg], aset acc.2 p.1 ⟨p.1, "line", false, some msg⟩)
                  else acc)
        wb
  let wt :=
    if resT.res_trafo.isEmpty then wl
    else
      trafoMap.foldl
        (fun (acc : List String × List (String × CreationStatus)) p =>
          match resT.res_trafo.lookup p.2 with
          | none => acc
          | some row =>
              match to_optional_float (dget row "loading_percent" Value.null) with
              | none => acc
              | some l =>
                  if jGt l (.fin 100) then
                    let msg := "Transformer overload '" ++ p.1
                      ++ "': loading_percent=" ++ jnumStr l ++ " > 100"
                    (acc.1 ++ [msg],
                     aset acc.2 p.1 ⟨p.1, "transformer", false, some msg⟩)
                  else acc)
        wl
  let genData := gen_nodes.foldl
    (fun m n => if n.id = "" then m else aset m n.id n.data) []
  if resT.res_gen.isEmpty then wt
  else
    genMap.foldl
      (fun (acc : List String × List (String × CreationStatus)) p =>
        match resT.res_gen.lookup p.2 with
        | none => acc
        | some row =>
            let data := (genData.lookup p.1).getD []
            let qmin := to_optional_float (dget data "min_q_mvar" Value.null)
            let qmax := to_optional_float (dget data "max_q_mvar" Value.null)
            if qmin.isNone ∧ qmax.isNone then acc
            else
              match to_optional_float (dget row "q_mvar" Value.null) with
              | none => acc
              | some q =>
                  if qmin.isSome ∧ jLt q (qmin.getD (.fin 0)) then
                    let msg := "Generator Q below min at '" ++ p.1
                      ++ "': q_mvar=" ++ jnumStr q ++ " < min_q_mvar="
                      ++ jnumStr (qmin.getD (.fin 0))
                    (acc.1 ++ [msg], aset acc.2 p.1 ⟨p.1, "gen", false, some msg⟩)
                  else if qmax.isSome ∧ jGt q (qmax.getD (.fin 0)) then
                    let msg := "Generator Q above max at '" ++ p.1
                      ++ "': q_mvar=" ++ jnumStr q ++ " > max_q_mvar="
                      ++ jnumStr (qmax.getD (.fin 0))
                    (acc.1 ++ [msg], aset acc.2 p.1 ⟨p.1, "gen", false, some msg⟩)
                  else acc)
      wt

/-- The state threaded through the assembly (step 5 of
`simulate_from_reactflow`): the growing model, the per-category index
registries, the element-status map, the error buckets and the warnings. -/
structure Assembly where
  net : Net
  busmap : List (String × Nat)
  slack : String
  lineMap : List (String × Nat) := []
  trafoMap : List (String × Nat) := []
  trafo3wMap : List (String × Nat) := []
  loadMap : List (String × Nat) := []
  genMap : List (String × Nat) := []
  sgenMap : List (String × Nat) := []
  motorMap : List (String × Nat) := []
  shuntMap : List (String × Nat) := []
  storageMap : List (String × Nat) := []
  estat : List (String × CreationStatus) := []
  errs : List (String × List VError) := []
  warnings : List String := []

/-- Step 5(a): lines from line nodes (creation routine modelled from the
spec, see `add_lines_from_nodes`), successes then failures into the status
map. -/
def assembleLines (lib : StdLib) (line_nodes : List RFNode) (a : Assembly) :
    Assembly :=
  let r := add_lines_from_nodes lib a.net line_nodes a.busmap
  let estat := applyStatuses a.estat (r.2.1.map fun p =>
    (⟨p.2, "line", true, none⟩ : CreationStatus))
  { a with
    net := r.1
    lineMap := r.2.2.1
    estat := applyStatuses estat r.2.2.2 }

/-- Step 5(b), two-winding transformers. -/
def assembleTransformers (lib : StdLib) (transformer_nodes : List RFNode)
    (a : Assembly) : Assembly :=
  let r := add_transformers lib a.net transformer_nodes a.busmap
  let estat := applyStatuses a.estat (r.2.1.map fun p =>
    (⟨p.2, "transformer", true, none⟩ : CreationStatus))
  { a with
    net := r.1
    trafoMap := r.2.1.foldl (fun m p => aset m p.2 p.1) []
    estat := applyStatuses estat r.2.2 }

/-- A category whose index map is rebuilt by the sequential
count-before/count-after loop of simulate.py. -/
def assembleSeqCat (etype : String) (nodesT : List RFNode)
    (runAdd : Net → List RFNode → List (String × Nat) →
      Net × Nat × List CreationStatus)
    (getLen : Net → Nat)
    (put : Assembly → List (String × Nat) → Assembly) (a : Assembly) :
    Assembly :=
  let before := getLen a.net
  let r := runAdd a.net nodesT a.busmap
  let failed := r.2.2
  let seq := seqIndexLoop etype (nodesT.map (·.id))
    (failed.map (·.element_id)) before (getLen r.1)
  let estat := applyStatuses (applyStatuses a.estat seq.2) failed
  put { a with net := r.1, estat := estat } seq.1

/-- Step 5(b), three-winding transformers. -/
def assembleTrafo3w (lib : StdLib) (trafo3w_nodes : List RFNode)
    (a : Assembly) : Assembly :=
  assembleSeqCat "trafo3w" trafo3w_nodes (add_trafo3w lib) (·.trafo3w.length)
    (fun a m => { a with trafo3wMap := m }) a

/-- Step 5(c): ext_grids, the slack-id update from the first ext_grid row
(reverse bus map), the multiple-ext_grid warning, and the `_ensure_slack`
check routed into errors["network"]. -/
def assembleExtGrids (ext_grid_nodes : List RFNode) (edges : List NEdge)
    (a : Assembly) : Assembly :=
  let r := add_ext_grids a.net ext_grid_nodes a.busmap edges
  let failed := r.2.2
  let estat := applyStatuses a.estat
    (successStatuses "ext_grid" ext_grid_nodes (failed.map (·.element_id)))
  let estat := applyStatuses estat failed
  let net := r.1
  let warnings := a.warnings ++
    (if net.ext_grid.length > 1 then
      ["Multiple ext_grids detected; using the first for slack reporting"]
    else [])
  let slack :=
    match net.ext_grid.head? with
    | some eg =>
        let rev := a.busmap.foldl
          (fun (m : List (Nat × String)) p => aset m p.2 p.1) []
        (rev.lookup eg.bus).getD a.slack
    | none => a.slack
  let errs :=
    match ensure_slack net with
    | .ok _ => a.errs
    | .error msg =>
        pushBucket a.errs "network" ⟨"", "network", some "ext_grid", msg⟩
  { a with
    net := net
    estat := estat
    warnings := warnings
    slack := slack
    errs := errs }

/-- Step 5(e): switches (they resolve elementId through the line and trafo
registries built earlier). -/
def assembleSwitches (switch_nodes : List RFNode) (a : Assembly) : Assembly :=
  let r := add_switches a.net switch_nodes a.busmap a.lineMap a.trafoMap
  let failed := r.2.2
  let estat := applyStatuses a.estat
    (successStatuses "switch" switch_nodes (failed.map (·.element_id)))
  { a with net := r.1, estat := applyStatuses estat failed }

/-- The whole dependency-ordered assembly: lines, transformers, trafo3w,
ext_grids, then the five independent injector categories, then switches. -/
def assembleAll (lib : StdLib) (nodes : List RFNode) (edges : List NEdge)
    (net0 : Net) (busmap : List (String × Nat)) (slack0 : String) : Assembly :=
  let a : Assembly := { net := net0, busmap := busmap, slack := slack0 }
  let a := assembleLines lib (nodesOfType nodes "line") a
  let a := assembleTransformers lib (nodesOfType nodes "transformer") a
  let a := assembleTrafo3w lib (nodesOfType nodes "trafo3w") a
  let a := assembleExtGrids (nodesOfType nodes "ext_grid") edges a
  let a := assembleSeqCat "load" (nodesOfType nodes "load") add_loads
    (·.load.length) (fun a m => { a with loadMap := m }) a
  let a := assembleSeqCat "gen" (nodesOfType nodes "gen") add_gens
    (·.gen.length) (fun a m => { a with genMap := m }) a
  let a := assembleSeqCat "sgen" (nodesOfType nodes "sgen") add_sgens
    (·.sgen.length) (fun a m => { a with sgenMap := m }) a
  let a := assembleSeqCat "motor" (nodesOfType nodes "motor") add_motors
    (·.motor.length) (fun a m => { a with motorMap := m }) a
  let a := assembleSeqCat "shunt" (nodesOfType nodes "shunt") add_shunts
    (·.shunt.length) (fun a m => { a with shuntMap := m }) a
  let a := assembleSeqCat "storage" (nodesOfType nodes "storage") add_storages
    (·.storage.length) (fun a m => { a with storageMap := m }) a
  assembleSwitches (nodesOfType nodes "switch") a

/-- Step 6: `pp.runpp` and the classification of its outcome into the
converged flag, the result tables and the powerflow error bucket. -/
def runPowerflow (settings : RunSettings) (solver : Net → SolverOutcome)
    (a : Assembly) : Bool × SolverTables × Net × List (String × List VError) :=
  match solver a.net with
  | .converged t => (true, t, { a.net with converged := true }, a.errs)
  | .notConverged detail =>
      (false, {}, a.net,
        pushBucket
          (pushBucket a.errs "powerflow" (pfNotConvergedError settings detail))
          "powerflow" pfConvergedFlagError)
  | .failed detail =>
      (false, {}, a.net,
        pushBucket a.errs "powerflow" (pfUnexpectedError settings detail))

/-- Step 7 for buses: `bus_by_id` keyed by external id and the sanitized raw
`res_bus` records, both only in a converged run with a non-empty bus result
table. -/
def busResults (busmap : List (String × Nat)) (convergedB : Bool)
    (resT : SolverTables) : List (String × BusResult) × List Value :=
  if convergedB && !resT.res_bus.isEmpty then
    (busmap.foldl
      (fun acc p =>
        match resT.res_bus.lookup p.2 with
        | none => acc
        | some row => acc ++ [(p.1, busResultOfRow row)])
      [],
     sanitizeList (resT.res_bus.map indexedRow))
  else ([], [])

/-- The main path of `simulate_from_reactflow` after bus creation succeeded
and validation came back clean: assembly, power flow, result collection,
violations, export. -/
def simulateMain (lib : StdLib) (solver : Net → SolverOutcome)
    (req : SimulateRequest) (net0 : Net) (busmap : List (String × Nat))
    (slack0 : String) : SimulateResponse :=
  let nodes := req.nodes
  let edges := normalizeEdges req.edges
  let a := assembleAll lib nodes edges net0 busmap slack0
  let pf := runPowerflow req.settings solver a
  let convergedB := pf.1
  let resT := pf.2.1
  let netF := pf.2.2.1
  let errs := pf.2.2.2
  let br := busResults busmap convergedB resT
  let viol :=
    if convergedB then
      violationsPass (nodesOfType nodes "bus") (nodesOfType nodes "gen") br.1
        a.lineMap a.trafoMap a.genMap resT a.warnings a.estat
    else (a.warnings, a.estat)
  let results0 := collect_simulation_results resT convergedB
    ((nodesOfType nodes "load").map (·.id))
    ((nodesOfType nodes "gen").map (·.id))
    ((nodesOfType nodes "sgen").map (·.id))
    ((nodesOfType nodes "motor").map (·.id))
    ((nodesOfType nodes "shunt").map (·.id))
    ((nodesOfType nodes "storage").map (·.id))
    ((nodesOfType nodes "line").map (·.id))
    ((nodesOfType nodes "transformer").map (·.id))
    ((nodesOfType nodes "trafo3w").map (·.id))
    a.loadMap a.genMap a.sgenMap a.motorMap a.shuntMap a.storageMap
    a.lineMap a.trafoMap a.trafo3wMap
  { summary := ⟨convergedB, 0, a.slack⟩
    bus_by_id := br.1
    res_bus := br.2
    warnings := viol.1
    errors := errs
    element_status := viol.2
    results := sanitizePairs results0
    network := export_network netF resT req.settings.return_network }

/-- `simulate_from_reactflow`, parameterised by the standard-type library and
the external load-flow solver.  The function is total: the only operation of
the try block that can raise outside a narrower handler is the bus-creation
float conversion, whose failure flows to the top-level catch-all
(`_build_error_response` with an errors["network"] entry). -/
def simulate_from_reactflow (lib : StdLib) (solver : Net → SolverOutcome)
    (req : SimulateRequest) : SimulateResponse :=
  let nodes := req.nodes
  let edges := normalizeEdges req.edges
  let bus_nodes := nodesOfType nodes "bus"
  if bus_nodes.isEmpty then
    build_error_response [("validation", [noBusError])] [] [] ""
  else
    match add_buses {} bus_nodes with
    | .error msg =>
        build_error_response (pushBucket [] "network" (catchAllError msg)) [] [] ""
    | .ok (net0, busmap, slack0) =>
        let verrs := validate_network nodes edges busmap
        if ¬ verrs.isEmpty then
          build_error_response [("validation", verrs)] (statusSeed verrs) [] slack0
        else
          simulateMain lib solver req net0 busmap slack0

/-! ### Derived notions used by the statements -/

/-- Whether an optional float is the null marker or finite. -/
def optFinite : Option JNum → Bool
  | none => true
  | some x => x.isFinite

/-- Whether every field of a BusResult is finite-or-null. -/
def busResultFinite (b : BusResult) : Bool :=
  optFinite b.vm_pu && optFinite b.va_degree && optFinite b.p_mw
    && optFinite b.q_mvar

/-- The id of the first bus node of a request. -/
def firstBusNodeId (nodes : List RFNode) : Option String :=
  ((nodesOfType nodes "bus").head?).map (·.id)

/-- Whether the creation of an ext_grid node succeeds: the effective bus id
resolves and the vm_pu / va_degree conversions do not raise (mirrors the
branch structure of `extGridStep`). -/
def extGridCreationOk (busmap : List (String × Nat))
    (attach : List (String × String)) (n : RFNode) : Bool :=
  let bid := effectiveExtGridBusId attach n
  if bid = "" ∨ (busmap.lookup bid).isNone then false
  else
    match (do
      let vm ← pyFloat (dget n.data "vm_pu" (.num (.fin 1)))
      let va ← pyFloat (dget n.data "va_degree" (.num (.fin 0)))
      pure (vm, va) : Option (JNum × JNum)) with
    | none => false
    | some _ => true

/-- The external bus id referenced by the first successfully created
ext_grid of a request, if any. -/
def firstSuccessfulExtGridBusId (nodes : List RFNode) (edges : List NEdge)
    (busmap : List (String × Nat)) : Option String :=
  let attach := extGridAttachMap edges
  ((nodesOfType nodes "ext_grid").find? (extGridCreationOk busmap attach)).map
    (effectiveExtGridBusId attach)

/-- The ext_grid row a successful `extGridStep` appends for a node (the
vm/va defaults are immaterial: the row is only used when both conversions
succeed). -/
def extGridRowOf (busmap : List (String × Nat))
    (attach : List (String × String)) (n : RFNode) : ExtGridRec :=
  { bus := (busmap.lookup (effectiveExtGridBusId attach n)).getD 0
    vm_pu := (pyFloat (dget n.data "vm_pu" (.num (.fin 1)))).getD (.fin 1)
    va_degree := (pyFloat (dget n.data "va_degree" (.num (.fin 0)))).getD (.fin 0)
    name := (dget n.data "name" (.str "Ext Grid")).pyStr
    in_service := (dget n.data "in_service" (.bool true)).truthy }

/-! ### Concrete instances used by counterexamples and witnesses -/

/-- A standard-type library containing the line type of the happy-path
scenario. -/
def demoLib : StdLib :=
  ⟨fun s => s = "NAYY 4x50 SE", fun _ => true, fun _ => true⟩

/-- A solver oracle with a fixed outcome. -/
def constSolver (o : SolverOutcome) : Net → SolverOutcome := fun _ => o

/-- A solver oracle that converges and reports a unit-voltage row for every
bus of the model. -/
def flatSolver : Net → SolverOutcome := fun net =>
  .converged
    { res_bus := (List.range net.bus.length).map fun i =>
        (i, [("vm_pu", Value.num (.fin 1)), ("va_degree", Value.num (.fin 0)),
             ("p_mw", Value.num (.fin 0)), ("q_mvar", Value.num (.fin 0))]) }

/-- The spec's happy-path scenario: two 22 kV buses, an ext_grid at bus-1
with vm_pu 1.02, a 10+j4 load at bus-2, and one line edge of kind "line"
with the named standard type and length 1 km. -/
def scenarioNodes : List RFNode :=
  [⟨"bus-1", "bus", [("name", .str "Bus 1"), ("vn_kv", .num (.fin 22))]⟩,
   ⟨"bus-2", "bus", [("name", .str "Bus 2"), ("vn_kv", .num (.fin 22))]⟩,
   ⟨"ext-grid-1", "ext_grid",
     [("busId", .str "bus-1"), ("vm_pu", .num (.fin (102 / 100)))]⟩,
   ⟨"load-1", "load",
     [("busId", .str "bus-2"), ("p_mw", .num (.fin 10)),
      ("q_mvar", .num (.fin 4))]⟩]

def scenarioEdges : List RFEdge :=
  [⟨some "e-bus1-bus2", "bus-1", "bus-2",
    some [("kind", .str "line"), ("std_type", .str "NAYY 4x50 SE"),
          ("length_km", .num (.fin 1))]⟩]

def scenarioReq : SimulateRequest := ⟨scenarioNodes, scenarioEdges, {}⟩

/-- A request whose single bus carries a null `vn_kv` (JSON null), making the
un-guarded `float` conversion of bus creation raise; it has no ext_grid. -/
def badVnKvReq : SimulateRequest :=
  ⟨[⟨"bus-1", "bus", [("vn_kv", Value.null)]⟩], [], {}⟩

/-- A bus-less request (one load only). -/
def noBusReq : SimulateRequest :=
  ⟨[⟨"load-1", "load", [("busId", .str "b"), ("p_mw", .num (.fin 1))]⟩], [], {}⟩

/-- A request that fails validation: one bus, no ext_grid. -/
def noExtGridReq : SimulateRequest :=
  ⟨[⟨"bus-1", "bus", [("vn_kv", .num (.fin 22))]⟩], [], {}⟩

/-- Two disconnected buses with an ext_grid on the first: the second bus is a
slackless island. -/
def islandNodes : List RFNode :=
  [⟨"b1", "bus", [("vn_kv", .num (.fin 22))]⟩,
   ⟨"b2", "bus", [("vn_kv", .num (.fin 22))]⟩,
   ⟨"eg", "ext_grid", [("busId", .str "b1")]⟩]

/-- The bus registry matching `islandNodes`. -/
def islandBusmap : List (String × Nat) := [("b1", 0), ("b2", 1)]

/-- A line edge with the four explicit electrical parameters and no standard
type. -/
def paramLineEdge : NEdge :=
  ⟨"e1", "bus-1", "bus-2",
   [("kind", .str "line"), ("length_km", .num (.fin 1)),
    ("r_ohm_per_km", .num (.fin (1 / 10))), ("x_ohm_per_km", .num (.fin (1 / 10))),
    ("c_nf_per_km", .num (.fin 10)), ("max_i_ka", .num (.fin (2 / 5)))]⟩

/-- Two buses and an ext_grid, used as the context of `paramLineEdge`. -/
def paramLineNodes : List RFNode :=
  [⟨"bus-1", "bus", [("vn_kv", .num (.fin 22))]⟩,
   ⟨"bus-2", "bus", [("vn_kv", .num (.fin 22))]⟩,
   ⟨"eg", "ext_grid", [("busId", .str "bus-1")]⟩]

/-- The bus registry matching `paramLineNodes`. -/
def paramLineBusmap : List (String × Nat) := [("bus-1", 0), ("bus-2", 1)]

/-- A request with two buses joined only by an open-switched line edge: the
switch `sw1` is open (`closed = false`) and targets the edge `e1`. -/
def openSwitchNodes : List RFNode :=
  [⟨"b1", "bus", [("vn_kv", .num (.fin 22))]⟩,
   ⟨"b2", "bus", [("vn_kv", .num (.fin 22))]⟩,
   ⟨"eg", "ext_grid", [("busId", .str "b1")]⟩,
   ⟨"sw1", "switch",
     [("busId", .str "b1"), ("elementId", .str "e1"),
      ("elementType", .str "line"), ("closed", .bool false)]⟩]

/-- The line edge opened by `sw1`. -/
def openSwitchEdges : List NEdge :=
  [⟨"e1", "b1", "b2", [("kind", .str "line"), ("std_type", .str "NAYY 4x50 SE"),
    ("length_km", .num (.fin 1))]⟩]

/-! ## Lemmas -/

theorem bucket_pushBucket_self {α : Type} (m : List (String × List α))
    (k : String) (v : α) : bucket (pushBucket m k v) k = bucket m k ++ [v] := by
  induction m with
  | nil => simp [pushBucket, bucket, List.lookup]
  | cons hd tl ih =>
      obtain ⟨k', vs⟩ := hd
      by_cases h : k' = k
      · subst h
        simp [pushBucket, bucket, List.lookup]
      · have hbeq : (k == k') = false := by
          simp [beq_iff_eq]
          exact fun he => h he.symm
        simp [pushBucket, bucket, List.lookup, h, hbeq] at ih ⊢
        exact ih

theorem lookup_sanitizePairs (l : List (String × Value)) (k : String) :
    (sanitizePairs l).lookup k = (l.lookup k).map sanitize_json_floats := by
  induction l with
  | nil => rfl
  | cons hd tl ih =>
      by_cases h : (k == hd.1)
      · simp [sanitizePairs, List.lookup, h]
      · simp [sanitizePairs, List.lookup, h, ih]

theorem collectCat_nil_ids (table : List (Nat × List (String × Value)))
    (idxMap : List (String × Nat))
    (f : List (String × Value) → List (String × Value)) :
    collectCat table [] idxMap f = Value.dict [] := by
  unfold collectCat collectRows
  split <;> rfl

theorem optFinite_to_optional_float (v : Value) :
    optFinite (to_optional_float v) = true := by
  unfold to_optional_float
  cases pyFloat v with
  | none => rfl
  | some x =>
      by_cases h : x.isFinite
      · simp [h, optFinite]
      · simp [h, optFinite]

theorem busResultOfRow_finite (row : List (String × Value)) :
    busResultFinite (busResultOfRow row) = true := by
  simp [busResultFinite, busResultOfRow, optFinite_to_optional_float]

mutual

theorem sanitize_finite : ∀ v, valueFinite (sanitize_json_floats v) = true
  | .null => rfl
  | .bool _ => rfl
  | .num x => by cases x <;> rfl
  | .str _ => rfl
  | .arr xs => by
      simpa [sanitize_json_floats, valueFinite] using sanitizeList_finite xs
  | .dict kvs => by
      simpa [sanitize_json_floats, valueFinite] using sanitizePairs_finite kvs

theorem sanitizeList_finite : ∀ xs, listFinite (sanitizeList xs) = true
  | [] => rfl
  | v :: vs => by
      simp [sanitizeList, listFinite, sanitize_finite v, sanitizeList_finite vs]

theorem sanitizePairs_finite : ∀ l, pairsFinite (sanitizePairs l) = true
  | [] => rfl
  | kv :: vs => by
      simp [sanitizePairs, pairsFinite, sanitize_finite kv.2,
        sanitizePairs_finite vs]

end

theorem mem_asetdefault {κ α : Type} [DecidableEq κ] [BEq κ]
    (m : List (κ × α)) (k : κ) (v : α) (p : κ × α)
    (hp : p ∈ asetdefault m k v) : p ∈ m ∨ p = (k, v) := by
  unfold asetdefault at hp
  split at hp
  · exact Or.inl hp
  · rcases List.mem_append.1 hp with h | h
    · exact Or.inl h
    · exact Or.inr (List.mem_singleton.1 h)

theorem statusSeed_go_success_false (verrs : List VError) :
    ∀ init : List (String × CreationStatus),
      (∀ p ∈ init, p.2.success = false) →
      ∀ p ∈ verrs.foldl
        (fun m err =>
          if err.element_id = "" then m
          else asetdefault m err.element_id
            ⟨err.element_id, err.element_type, false, some err.message⟩) init,
      p.2.success = false := by
  induction verrs with
  | nil => intro init h p hp; exact h p hp
  | cons e rest ih =>
      intro init h p hp
      simp only [List.foldl] at hp
      refine ih _ ?_ p hp
      intro q hq
      by_cases he : e.element_id = ""
      · rw [if_pos he] at hq
        exact h q hq
      · rw [if_neg he] at hq
        rcases mem_asetdefault _ _ _ _ hq with h' | h'
        · exact h q h'
        · rw [h']

theorem statusSeed_success_false (verrs : List VError) :
    ∀ p ∈ statusSeed verrs, p.2.success = false := by
  unfold statusSeed
  exact statusSeed_go_success_false verrs [] (by intro p hp; cases hp)

/-- `add_buses` on the empty list raises the no-bus-nodes error. -/
theorem add_buses_nil : add_buses {} ([] : List RFNode)
    = .error "No bus nodes provided" := rfl

/-- Path lemma: the no-bus early return. -/
theorem simulate_no_bus (lib : StdLib) (solver : Net → SolverOutcome)
    (req : SimulateRequest) (h : (nodesOfType req.nodes "bus").isEmpty = true) :
    simulate_from_reactflow lib solver req
      = build_error_response [("validation", [noBusError])] [] [] "" := by
  unfold simulate_from_reactflow
  simp [h]

/-- Path lemma: the catch-all after a bus-creation failure. -/
theorem simulate_addbuses_error (lib : StdLib) (solver : Net → SolverOutcome)
    (req : SimulateRequest) (msg : String)
    (hne : (nodesOfType req.nodes "bus").isEmpty = false)
    (herr : add_buses {} (nodesOfType req.nodes "bus") = .error msg) :
    simulate_from_reactflow lib solver req
      = build_error_response (pushBucket [] "network" (catchAllError msg)) [] [] "" := by
  unfold simulate_from_reactflow
  simp [hne, herr]

/-- Path lemma: the validation early return. -/
theorem simulate_validation_failed (lib : StdLib) (solver : Net → SolverOutcome)
    (req : SimulateRequest) (net0 : Net) (busmap : List (String × Nat))
    (slack0 : String)
    (hok : add_buses {} (nodesOfType req.nodes "bus") = .ok (net0, busmap, slack0))
    (hval : (validate_network req.nodes (normalizeEdges req.edges) busmap).isEmpty
      = false) :
    simulate_from_reactflow lib solver req
      = build_error_response
          [("validation", validate_network req.nodes (normalizeEdges req.edges) busmap)]
          (statusSeed (validate_network req.nodes (normalizeEdges req.edges) busmap))
          [] slack0 := by
  have hne : (nodesOfType req.nodes "bus").isEmpty = false := by
    cases hh : nodesOfType req.nodes "bus" with
    | nil => rw [hh] at hok; rw [add_buses_nil] at hok; cases hok
    | cons a l => rfl
  unfold simulate_from_reactflow
  simp [hne, hok, hval]

/-- Path lemma: the main path. -/
theorem simulate_main_eq (lib : StdLib) (solver : Net → SolverOutcome)
    (req : SimulateRequest) (net0 : Net) (busmap : List (String × Nat))
    (slack0 : String)
    (hok : add_buses {} (nodesOfType req.nodes "bus") = .ok (net0, busmap, slack0))
    (hval : (validate_network req.nodes (normalizeEdges req.edges) busmap).isEmpty
      = true) :
    simulate_from_reactflow lib solver req
      = simulateMain lib solver req net0 busmap slack0 := by
  have hne : (nodesOfType req.nodes "bus").isEmpty = false := by
    cases hh : nodesOfType req.nodes "bus" with
    | nil => rw [hh] at hok; rw [add_buses_nil] at hok; cases hok
    | cons a l => rfl
  unfold simulate_from_reactflow
  simp [hne, hok, hval]

theorem addBusesGo_ok (nodes : List RFNode) :
    ∀ (net : Net) (busmap : List (String × Nat)) (slack : Option String),
      (∀ n ∈ nodes, (pyFloat (dget n.data "vn_kv" (.num (.fin 22)))).isSome = true) →
      (slack.isSome = true ∨ nodes ≠ []) →
      ∃ t, addBusesGo net busmap slack nodes = .ok t := by
  induction nodes with
  | nil =>
      intro net busmap slack _ hs
      rcases hs with hs | hs
      · obtain ⟨s, hs'⟩ := Option.isSome_iff_exists.1 hs
        subst hs'
        exact ⟨(net, busmap, s), rfl⟩
      · exact absurd rfl hs
  | cons n rest ih =>
      intro net busmap slack h _
      obtain ⟨v, hv⟩ := Option.isSome_iff_exists.1 (h n (List.mem_cons_self _ _))
      simp only [addBusesGo, hv]
      exact ih _ _ _ (fun m hm => h m (List.mem_cons_of_mem _ hm)) (Or.inl rfl)

theorem add_buses_ok_of_conv (nodes : List RFNode) (hne : nodes ≠ [])
    (h : ∀ n ∈ nodes, (pyFloat (dget n.data "vn_kv" (.num (.fin 22)))).isSome = true) :
    ∃ t, add_buses {} nodes = .ok t :=
  addBusesGo_ok nodes {} [] none h (Or.inr hne)

theorem validate_ne_of_no_ext_grid (nodes : List RFNode) (edges : List NEdge)
    (busmap : List (String × Nat)) (h : nodesOfType nodes "ext_grid" = []) :
    validate_network nodes edges busmap ≠ [] := by
  have hbase : base_errors nodes edges busmap ≠ [] := by
    unfold base_errors extGridPresenceErrors
    rw [h]
    simp
  unfold validate_network
  intro hc
  rcases List.append_eq_nil.1 hc with ⟨h1, _⟩
  exact hbase h1

/-! ## Claim theorems -/

/-- C10: a request with no bus node short-circuits before any model element
is created: converged false, exactly the one `field = "bus"` validation
error, empty bus_by_id / results / element_status. -/
theorem c10_no_bus_precondition (lib : StdLib) (solver : Net → SolverOutcome)
    (req : SimulateRequest) (h : nodesOfType req.nodes "bus" = []) :
    (simulate_from_reactflow lib solver req).summary.converged = false
    ∧ (simulate_from_reactflow lib solver req).errors
        = [("validation",
            [⟨"", "network", some "bus", "At least one bus is required"⟩])]
    ∧ (simulate_from_reactflow lib solver req).bus_by_id = []
    ∧ (simulate_from_reactflow lib solver req).results = []
    ∧ (simulate_from_reactflow lib solver req).element_status = [] := by
  have h' : (nodesOfType req.nodes "bus").isEmpty = true := by rw [h]; rfl
  rw [simulate_no_bus lib solver req h']
  exact ⟨rfl, rfl, rfl, rfl, rfl⟩

/-- Witness for C10 at a concrete bus-less request. -/
theorem c10_witness :
    (simulate_from_reactflow demoLib (constSolver (.notConverged "x")) noBusReq).summary.converged
      = false
    ∧ (simulate_from_reactflow demoLib (constSolver (.notConverged "x")) noBusReq).errors
        = [("validation",
            [⟨"", "network", some "bus", "At least one bus is required"⟩])] := by
  have h := c10_no_bus_precondition demoLib (constSolver (.notConverged "x"))
    noBusReq rfl
  exact ⟨h.1, h.2.1⟩

/-- C3: whenever bus creation succeeded and `_validate_network` returned a
non-empty error list, the response is the fail-fast one: converged false,
empty bus_by_id / res_bus / results, and no element reported as created. -/
theorem c3_validation_fatal (lib : StdLib) (solver : Net → SolverOutcome)
    (req : SimulateRequest) (net0 : Net) (busmap : List (String × Nat))
    (slack0 : String)
    (hok : add_buses {} (nodesOfType req.nodes "bus") = .ok (net0, busmap, slack0))
    (hval : validate_network req.nodes (normalizeEdges req.edges) busmap ≠ []) :
    (simulate_from_reactflow lib solver req).summary.converged = false
    ∧ (simulate_from_reactflow lib solver req).bus_by_id = []
    ∧ (simulate_from_reactflow lib solver req).res_bus = []
    ∧ (simulate_from_reactflow lib solver req).results = []
    ∧ ∀ p ∈ (simulate_from_reactflow lib solver req).element_status,
        p.2.success = false := by
  have hv' : (validate_network req.nodes (normalizeEdges req.edges) busmap).isEmpty
      = false := by
    cases hvv : validate_network req.nodes (normalizeEdges req.edges) busmap with
    | nil => exact absurd hvv hval
    | cons a l => rfl
  rw [simulate_validation_failed lib solver req net0 busmap slack0 hok hv']
  exact ⟨rfl, rfl, rfl, rfl, statusSeed_success_false _⟩

/-- Witness for C3 at a request with one bus and no ext_grid. -/
theorem c3_witness :
    (simulate_from_reactflow demoLib (constSolver (.notConverged "x")) noExtGridReq).summary.converged
      = false
    ∧ (simulate_from_reactflow demoLib (constSolver (.notConverged "x")) noExtGridReq).results
      = [] := by
  have h := c3_validation_fatal demoLib (constSolver (.notConverged "x"))
    noExtGridReq { bus := [⟨.fin 22, "Bus", true⟩] } [("bus-1", 0)] "bus-1"
    rfl (by decide)
  exact ⟨h.1, h.2.2.2.1⟩

/-- C2 counterexample: a request with zero ext_grid nodes whose single bus
has a null `vn_kv`.  Bus creation raises before validation ever runs, so the
failure lands in errors["network"]: errors["validation"] is empty and the
claimed conjunction is false at this input. -/
theorem c2_counterexample :
    nodesOfType badVnKvReq.nodes "ext_grid" = []
    ∧ (simulate_from_reactflow demoLib (constSolver (.notConverged "x")) badVnKvReq).errors.lookup
        "validation" = none
    ∧ ¬(bucket (simulate_from_reactflow demoLib (constSolver (.notConverged "x")) badVnKvReq).errors
          "validation" ≠ []
        ∧ (simulate_from_reactflow demoLib (constSolver (.notConverged "x")) badVnKvReq).summary.converged
          = false) := by
  refine ⟨rfl, rfl, ?_⟩
  rintro ⟨hne, -⟩
  exact hne rfl

/-- C2 as amended: a request with zero ext_grid nodes yields a non-empty
errors["validation"] and converged false, provided every bus node's `vn_kv`
value is float-convertible (so that bus creation does not raise first). -/
theorem c2_no_ext_grid_fatal_amended (lib : StdLib)
    (solver : Net → SolverOutcome) (req : SimulateRequest)
    (hno : nodesOfType req.nodes "ext_grid" = [])
    (hbus : ∀ n ∈ nodesOfType req.nodes "bus",
      (pyFloat (dget n.data "vn_kv" (.num (.fin 22)))).isSome = true) :
    bucket (simulate_from_reactflow lib solver req).errors "validation" ≠ []
    ∧ (simulate_from_reactflow lib solver req).summary.converged = false := by
  by_cases hbe : (nodesOfType req.nodes "bus").isEmpty = true
  · rw [simulate_no_bus lib solver req hbe]
    refine ⟨?_, rfl⟩
    intro hc
    simp [build_error_response, bucket, List.lookup] at hc
  · have hne : nodesOfType req.nodes "bus" ≠ [] := by
      intro hh
      rw [hh] at hbe
      exact hbe rfl
    obtain ⟨⟨net0, busmap, slack0⟩, hok⟩ := add_buses_ok_of_conv _ hne hbus
    have hvne := validate_ne_of_no_ext_grid req.nodes (normalizeEdges req.edges)
      busmap hno
    have hv' : (validate_network req.nodes (normalizeEdges req.edges) busmap).isEmpty
        = false := by
      cases hvv : validate_network req.nodes (normalizeEdges req.edges) busmap with
      | nil => exact absurd hvv hvne
      | cons a l => rfl
    rw [simulate_validation_failed lib solver req net0 busmap slack0 hok hv']
    refine ⟨?_, rfl⟩
    simpa [build_error_response, bucket, List.lookup] using hvne

/-- Witness for the amended C2 at a concrete request. -/
theorem c2_witness :
    bucket (simulate_from_reactflow demoLib (constSolver (.notConverged "x")) noExtGridReq).errors
      "validation" ≠ []
    ∧ (simulate_from_reactflow demoLib (constSolver (.notConverged "x")) noExtGridReq).summary.converged
      = false :=
  c2_no_ext_grid_fatal_amended demoLib (constSolver (.notConverged "x"))
    noExtGridReq rfl (by decide)

/-- C6 counterexample: a line edge between two distinct known buses with a
positive numeric length and all four explicit electrical parameters, but no
standard-type name, DOES produce a validation error from `_validate_network`
(field std_type) — the whole validation run returns exactly that error. -/
theorem c6_counterexample :
    (dget paramLineEdge.data "kind" (.str "")).pyStr = "line"
    ∧ paramLineEdge.source ≠ paramLineEdge.target
    ∧ (paramLineBusmap.lookup paramLineEdge.source).isSome = true
    ∧ (paramLineBusmap.lookup paramLineEdge.target).isSome = true
    ∧ (dget paramLineEdge.data "std_type" (.str "")).pyStr = ""
    ∧ asFloat (dget paramLineEdge.data "length_km" Value.null) = some (.fin 1)
    ∧ (asFloat (dget paramLineEdge.data "r_ohm_per_km" Value.null)).isSome = true
    ∧ (asFloat (dget paramLineEdge.data "x_ohm_per_km" Value.null)).isSome = true
    ∧ (asFloat (dget paramLineEdge.data "c_nf_per_km" Value.null)).isSome = true
    ∧ (asFloat (dget paramLineEdge.data "max_i_ka" Value.null)).isSome = true
    ∧ validate_network paramLineNodes [paramLineEdge] paramLineBusmap
        = [⟨"e1", "line", some "std_type", "std_type is required for lines."⟩] := by
  refine ⟨rfl, ?_, rfl, rfl, rfl, rfl, rfl, rfl, rfl, rfl, rfl⟩
  decide

/-- C6 as amended: such an edge produces exactly one validation error
attributed to it, the std_type-required one — the explicit-parameter style
does not exempt a line edge from `_validate_network`'s standard-type
requirement — and that error is an element of the whole validation run's
output. -/
theorem c6_param_line_std_type_required_amended (nodes : List RFNode)
    (busmap : List (String × Nat)) (edges : List NEdge) (e : NEdge)
    (he : e ∈ edges)
    (hkind : (dget e.data "kind" (.str "")).pyStr = "line")
    (hsrc : (busmap.lookup e.source).isSome = true)
    (htgt : (busmap.lookup e.target).isSome = true)
    (hstd : (dget e.data "std_type" (.str "")).pyStr = "")
    (hlen : ∃ q : ℚ, 0 < q
      ∧ asFloat (dget e.data "length_km" Value.null) = some (.fin q))
    (hr : (asFloat (dget e.data "r_ohm_per_km" Value.null)).isSome = true)
    (hx : (asFloat (dget e.data "x_ohm_per_km" Value.null)).isSome = true)
    (hc : (asFloat (dget e.data "c_nf_per_km" Value.null)).isSome = true)
    (hmi : (asFloat (dget e.data "max_i_ka" Value.null)).isSome = true) :
    edgeErrorsFor nodes busmap e
      = [⟨e.id, "line", some "std_type", "std_type is required for lines."⟩]
    ∧ (⟨e.id, "line", some "std_type", "std_type is required for lines."⟩ : VError)
        ∈ validate_network nodes edges busmap := by
  obtain ⟨q, hq, hqe⟩ := hlen
  have hsrc' : (busmap.lookup e.source).isNone = false := by
    obtain ⟨i, hi⟩ := Option.isSome_iff_exists.1 hsrc
    rw [hi]; rfl
  have htgt' : (busmap.lookup e.target).isNone = false := by
    obtain ⟨i, hi⟩ := Option.isSome_iff_exists.1 htgt
    rw [hi]; rfl
  have hle : jLe (.fin q) (.fin 0) = false := by
    simp [jLe]
    linarith
  have h1 : edgeErrorsFor nodes busmap e
      = [⟨e.id, "line", some "std_type", "std_type is required for lines."⟩] := by
    unfold edgeErrorsFor
    simp only [hkind, if_pos rfl, hsrc', htgt', hstd, hqe, asFloat] at *
    simp [hsrc', htgt', hstd, hqe, hle, asFloat]
  refine ⟨h1, ?_⟩
  have hmem : (⟨e.id, "line", some "std_type", "std_type is required for lines."⟩ : VError)
      ∈ edges.flatMap (edgeErrorsFor nodes busmap) :=
    List.mem_flatMap.2 ⟨e, he, by rw [h1]; exact List.mem_singleton.2 rfl⟩
  unfold validate_network base_errors
  simp only [List.append_assoc, List.mem_append]
  exact Or.inr (Or.inr (Or.inr (Or.inr (Or.inr (Or.inl hmem)))))

/-- Witness for the amended C6 at the concrete parameter-style edge. -/
theorem c6_witness :
    edgeErrorsFor paramLineNodes paramLineBusmap paramLineEdge
      = [⟨"e1", "line", some "std_type", "std_type is required for lines."⟩]
    ∧ (⟨"e1", "line", some "std_type", "std_type is required for lines."⟩ : VError)
        ∈ validate_network paramLineNodes [paramLineEdge] paramLineBusmap :=
  c6_param_line_std_type_required_amended paramLineNodes paramLineBusmap
    [paramLineEdge] paramLineEdge (List.mem_singleton.2 rfl) rfl rfl rfl rfl
    ⟨1, one_pos, rfl⟩ rfl rfl rfl rfl

/-- C1 (code evaluated at the failing input): on the spec's happy-path
scenario — whose line is an edge of kind "line" — the pipeline never creates
a pandapower line (simulate.py passes only nodes of type "line" to line
creation and never calls `_add_lines_from_edges`), so `results["lines"]` is
the empty map for EVERY solver outcome, contradicting the claimed non-empty
`results["lines"]` and the repository's own happy-path test. -/
theorem c1_scenario_line_results_empty (solver : Net → SolverOutcome) :
    (simulate_from_reactflow demoLib solver scenarioReq).results.lookup "lines"
      = some (Value.dict []) := by
  obtain ⟨⟨net0, busmap, slack0⟩, hok⟩ :
      ∃ t, add_buses {} (nodesOfType scenarioReq.nodes "bus") = .ok t := ⟨_, rfl⟩
  have hval : (validate_network scenarioReq.nodes
      (normalizeEdges scenarioReq.edges) busmap).isEmpty = true := by
    cases hok
    rfl
  rw [simulate_main_eq demoLib solver scenarioReq net0 busmap slack0 hok hval]
  unfold simulateMain
  rw [lookup_sanitizePairs]
  have hln : ((nodesOfType scenarioReq.nodes "line").map (·.id))
      = ([] : List String) := rfl
  cases hout : solver ((assembleAll demoLib scenarioReq.nodes
      (normalizeEdges scenarioReq.edges) net0 busmap slack0).net) with
  | converged t =>
      simp only [runPowerflow, hout, hln, collect_simulation_results]
      simp [List.lookup, collectCat_nil_ids, sanitize_json_floats, sanitizePairs]
  | notConverged d =>
      simp only [runPowerflow, hout, hln, collect_simulation_results]
      simp [List.lookup, sanitize_json_floats, sanitizePairs]
  | failed d =>
      simp only [runPowerflow, hout, hln, collect_simulation_results]
      simp [List.lookup, sanitize_json_floats, sanitizePairs]

/-- C9: no exception escapes `simulate_from_reactflow`.  (a) The only
operation of the try block outside a narrower handler — the bus-creation
float conversion — lands in the catch-all: errors["network"] non-empty and
converged false.  (b) A solver failure (LoadflowNotConverged or any other
exception) is caught at the runpp site: errors["powerflow"] non-empty and
converged false.  Totality of the embedding itself models that a structurally
valid response is always returned. -/
theorem c9_no_exception_escape (lib : StdLib) (solver : Net → SolverOutcome)
    (req : SimulateRequest) :
    (∀ msg, (nodesOfType req.nodes "bus").isEmpty = false →
      add_buses {} (nodesOfType req.nodes "bus") = .error msg →
      bucket (simulate_from_reactflow lib solver req).errors "network" ≠ []
      ∧ (simulate_from_reactflow lib solver req).summary.converged = false)
    ∧ (∀ net0 busmap slack0 detail,
        add_buses {} (nodesOfType req.nodes "bus") = .ok (net0, busmap, slack0) →
        (validate_network req.nodes (normalizeEdges req.edges) busmap).isEmpty
          = true →
        (solver (assembleAll lib req.nodes (normalizeEdges req.edges) net0 busmap
            slack0).net = .notConverged detail
          ∨ solver (assembleAll lib req.nodes (normalizeEdges req.edges) net0
              busmap slack0).net = .failed detail) →
        bucket (simulate_from_reactflow lib solver req).errors "powerflow" ≠ []
        ∧ (simulate_from_reactflow lib solver req).summary.converged = false) := by
  constructor
  · intro msg hne herr
    rw [simulate_addbuses_error lib solver req msg hne herr]
    constructor
    · rw [show (build_error_response (pushBucket [] "network" (catchAllError msg))
          [] [] "").errors = pushBucket [] "network" (catchAllError msg) from rfl]
      rw [bucket_pushBucket_self]
      simp
    · rfl
  · intro net0 busmap slack0 detail hok hval hout
    rw [simulate_main_eq lib solver req net0 busmap slack0 hok hval]
    unfold simulateMain
    rcases hout with hout | hout
    · simp only [runPowerflow, hout]
      refine ⟨?_, by trivial⟩
      rw [bucket_pushBucket_self]
      simp
    · simp only [runPowerflow, hout]
      refine ⟨?_, by trivial⟩
      rw [bucket_pushBucket_self]
      simp

/-- Witness for C9: a not-converging solver on the happy-path request lands
in errors["powerflow"]; the null-vn_kv request lands in errors["network"]. -/
theorem c9_witness :
    (bucket (simulate_from_reactflow demoLib (constSolver (.notConverged "boom"))
        scenarioReq).errors "powerflow" ≠ []
      ∧ (simulate_from_reactflow demoLib (constSolver (.notConverged "boom"))
          scenarioReq).summary.converged = false)
    ∧ bucket (simulate_from_reactflow demoLib (constSolver (.notConverged "boom"))
        badVnKvReq).errors "network" ≠ [] := by
  constructor
  · obtain ⟨⟨n, m, s⟩, hok⟩ :
        ∃ t, add_buses {} (nodesOfType scenarioReq.nodes "bus") = .ok t := ⟨_, rfl⟩
    exact (c9_no_exception_escape demoLib (constSolver (.notConverged "boom"))
      scenarioReq).2 n m s "boom" hok (by cases hok; rfl) (Or.inl rfl)
  · exact ((c9_no_exception_escape demoLib (constSolver (.notConverged "boom"))
      badVnKvReq).1 _ rfl rfl).1

theorem sanitizePairs_all_finite (l : List (String × Value)) :
    ((sanitizePairs l).all fun p => valueFinite p.2) = true := by
  induction l with
  | nil => rfl
  | cons kv rest ih => simp [sanitizePairs, List.all_cons, sanitize_finite, ih]

theorem listFinite_eq_all (xs : List Value) :
    listFinite xs = xs.all valueFinite := by
  induction xs with
  | nil => rfl
  | cons v vs ih => simp [listFinite, List.all_cons, ih]

theorem busResults_fold_all (table : List (Nat × List (String × Value)))
    (m : List (String × Nat)) :
    ∀ init : List (String × BusResult),
      (init.all fun p => busResultFinite p.2) = true →
      ((m.foldl
        (fun acc p =>
          match table.lookup p.2 with
          | none => acc
          | some row => acc ++ [(p.1, busResultOfRow row)]) init).all
        fun p => busResultFinite p.2) = true := by
  induction m with
  | nil => intro init h; exact h
  | cons hd tl ih =>
      intro init h
      simp only [List.foldl]
      cases hl : table.lookup hd.2 with
      | none => exact ih init h
      | some row =>
          refine ih _ ?_
          simp [List.all_append, h, busResultOfRow_finite]

theorem busResults_all_finite (busmap : List (String × Nat)) (c : Bool)
    (resT : SolverTables) :
    (((busResults busmap c resT).1.all fun p => busResultFinite p.2)) = true := by
  unfold busResults
  split
  · exact busResults_fold_all _ _ [] rfl
  · rfl

theorem busResults_res_bus_finite (busmap : List (String × Nat)) (c : Bool)
    (resT : SolverTables) :
    listFinite (busResults busmap c resT).2 = true := by
  unfold busResults
  split
  · exact sanitizeList_finite _
  · rfl

/-- C8: every float in the response's `bus_by_id`, `res_bus` and `results`
payloads is finite or the null marker — never nan or an infinity — for every
request, every solver outcome and every standard-type library. -/
theorem c8_response_floats_finite (lib : StdLib) (solver : Net → SolverOutcome)
    (req : SimulateRequest) :
    ((simulate_from_reactflow lib solver req).bus_by_id.all
      fun p => busResultFinite p.2) = true
    ∧ listFinite (simulate_from_reactflow lib solver req).res_bus = true
    ∧ ((simulate_from_reactflow lib solver req).results.all
      fun p => valueFinite p.2) = true := by
  by_cases hbe : (nodesOfType req.nodes "bus").isEmpty = true
  · rw [simulate_no_bus lib solver req hbe]
    exact ⟨rfl, rfl, rfl⟩
  · have hbe' : (nodesOfType req.nodes "bus").isEmpty = false := by
      rwa [Bool.not_eq_true] at hbe
    cases hab : add_buses {} (nodesOfType req.nodes "bus") with
    | error msg =>
        rw [simulate_addbuses_error lib solver req msg hbe' hab]
        exact ⟨rfl, rfl, rfl⟩
    | ok t =>
        obtain ⟨net0, busmap, slack0⟩ := t
        by_cases hv : (validate_network req.nodes (normalizeEdges req.edges)
            busmap).isEmpty = true
        · rw [simulate_main_eq lib solver req net0 busmap slack0 hab hv]
          unfold simulateMain
          exact ⟨busResults_all_finite _ _ _, busResults_res_bus_finite _ _ _,
            sanitizePairs_all_finite _⟩
        · have hv' : (validate_network req.nodes (normalizeEdges req.edges)
              busmap).isEmpty = false := by rwa [Bool.not_eq_true] at hv
          rw [simulate_validation_failed lib solver req net0 busmap slack0 hab hv']
          exact ⟨rfl, rfl, rfl⟩

theorem filterMap_filter_of_none {α β : Type} (f : α → Option β) (p : α → Bool)
    (h : ∀ a, p a = false → f a = none) :
    ∀ l : List α, (l.filter p).filterMap f = l.filterMap f := by
  intro l
  induction l with
  | nil => rfl
  | cons a rest ih =>
      by_cases hp : p a = true
      · simp [List.filter_cons, hp, List.filterMap_cons, ih]
      · have hp' : p a = false := by rwa [Bool.not_eq_true] at hp
        simp [List.filter_cons, hp', List.filterMap_cons, h a hp', ih]

theorem filter_filter_of_false {α : Type} (p q : α → Bool)
    (h : ∀ a, p a = false → q a = false) :
    ∀ l : List α, (l.filter p).filter q = l.filter q := by
  intro l
  induction l with
  | nil => rfl
  | cons a rest ih =>
      by_cases hp : p a = true
      · simp [List.filter_cons, hp, ih]
      · have hp' : p a = false := by rwa [Bool.not_eq_true] at hp
        simp [List.filter_cons, hp', h a hp', ih]

theorem flatMap_filter_of_nil {α β : Type} (f : α → List β) (p : α → Bool)
    (h : ∀ a, p a = false → f a = []) :
    ∀ l : List α, (l.filter p).flatMap f = l.flatMap f := by
  intro l
  induction l with
  | nil => rfl
  | cons a rest ih =>
      by_cases hp : p a = true
      · simp [List.filter_cons, hp, ih]
      · have hp' : p a = false := by rwa [Bool.not_eq_true] at hp
        simp [List.filter_cons, hp', h a hp', ih]

theorem foldl_filter_of_id {α β : Type} (f : β → α → β) (p : α → Bool)
    (h : ∀ b a, p a = false → f b a = b) :
    ∀ (l : List α) (b : β), (l.filter p).foldl f b = l.foldl f b := by
  intro l
  induction l with
  | nil => intro b; rfl
  | cons a rest ih =>
      intro b
      by_cases hp : p a = true
      · simp [List.filter_cons, hp, ih]
      · have hp' : p a = false := by rwa [Bool.not_eq_true] at hp
        simp [List.filter_cons, hp', h b a hp', ih]

/-- The predicate that drops exactly the transformer nodes opened by a
switch. -/
def keepClosedTrafo (nodes : List RFNode) (n : RFNode) : Bool :=
  !(decide (n.type = "transformer") && (openElementIds nodes).2.contains n.id)

/-- The predicate that drops exactly the edges opened by a switch. -/
def keepClosedLine (nodes : List RFNode) (e : NEdge) : Bool :=
  !((openElementIds nodes).1.contains e.id)

theorem keepClosedTrafo_false {nodes : List RFNode} {n : RFNode}
    (h : keepClosedTrafo nodes n = false) :
    n.type = "transformer" ∧ (openElementIds nodes).2.contains n.id = true := by
  unfold keepClosedTrafo at h
  rw [Bool.not_eq_false'] at h
  rw [Bool.and_eq_true] at h
  exact ⟨of_decide_eq_true h.1, h.2⟩

theorem openElementIds_filter_trafo (nodes : List RFNode) :
    openElementIds (nodes.filter (keepClosedTrafo nodes)) = openElementIds nodes := by
  unfold openElementIds
  refine foldl_filter_of_id _ _ ?_ nodes ([], [])
  intro b n hn
  have h1 := (keepClosedTrafo_false hn).1
  have : (n.type ≠ "switch") = True := by
    simp [h1]
  simp [this]

theorem islandBusIds_filter_trafo (nodes : List RFNode) :
    islandBusIds (nodes.filter (keepClosedTrafo nodes)) = islandBusIds nodes := by
  unfold islandBusIds
  rw [filter_filter_of_false (keepClosedTrafo nodes) _ ?_ nodes]
  intro n hn
  have h1 := (keepClosedTrafo_false hn).1
  simp [h1]

theorem extGridBusIds_filter_trafo (nodes : List RFNode) :
    extGridBusIds (nodes.filter (keepClosedTrafo nodes)) = extGridBusIds nodes := by
  unfold extGridBusIds
  refine filterMap_filter_of_none _ _ ?_ nodes
  intro n hn
  have h1 := (keepClosedTrafo_false hn).1
  simp [h1]

theorem trafoLinks_filter_trafo (nodes : List RFNode) :
    trafoLinks (nodes.filter (keepClosedTrafo nodes)) = trafoLinks nodes := by
  unfold trafoLinks
  rw [islandBusIds_filter_trafo, openElementIds_filter_trafo]
  refine filterMap_filter_of_none _ _ ?_ nodes
  intro n hn
  obtain ⟨h1, h2⟩ := keepClosedTrafo_false hn
  have h2' : n.id ∈ (openElementIds nodes).2 := by simpa using h2
  unfold trafoLinkOf
  simp [h1, h2']

theorem trafo3wLinks_filter_trafo (nodes : List RFNode) :
    trafo3wLinks (nodes.filter (keepClosedTrafo nodes)) = trafo3wLinks nodes := by
  unfold trafo3wLinks
  rw [islandBusIds_filter_trafo]
  refine flatMap_filter_of_nil _ _ ?_ nodes
  intro n hn
  have h1 := (keepClosedTrafo_false hn).1
  unfold trafo3wLinksOf
  simp [h1]

theorem islandLinks_filter_trafo (nodes : List RFNode) (edges : List NEdge) :
    islandLinks (nodes.filter (keepClosedTrafo nodes)) edges
      = islandLinks nodes edges := by
  unfold islandLinks lineLinks
  rw [islandBusIds_filter_trafo, openElementIds_filter_trafo,
    trafoLinks_filter_trafo, trafo3wLinks_filter_trafo]

theorem islandLinks_filter_line (nodes : List RFNode) (edges : List NEdge) :
    islandLinks nodes (edges.filter (keepClosedLine nodes))
      = islandLinks nodes edges := by
  unfold islandLinks lineLinks
  rw [filterMap_filter_of_none (lineLinkOf (islandBusIds nodes)
    (openElementIds nodes).1) _ ?_ edges]
  intro e he
  have h : (openElementIds nodes).1.contains e.id = true := by
    unfold keepClosedLine at he
    rwa [Bool.not_eq_false'] at he
  have h' : e.id ∈ (openElementIds nodes).1 := by simpa using h
  unfold lineLinkOf
  simp [h']

theorem islandNeighbors_filter_line (nodes : List RFNode) (edges : List NEdge) :
    islandNeighbors nodes (edges.filter (keepClosedLine nodes))
      = islandNeighbors nodes edges := by
  funext cur
  unfold islandNeighbors
  rw [islandLinks_filter_line]

theorem islandNeighbors_filter_trafo (nodes : List RFNode) (edges : List NEdge) :
    islandNeighbors (nodes.filter (keepClosedTrafo nodes)) edges
      = islandNeighbors nodes edges := by
  funext cur
  unfold islandNeighbors
  rw [islandLinks_filter_trafo]

theorem islanding_filter_line (nodes : List RFNode) (edges : List NEdge) :
    islanding_errors nodes (edges.filter (keepClosedLine nodes))
      = islanding_errors nodes edges := by
  unfold islanding_errors firstSlacklessComponent
  rw [islandNeighbors_filter_line]

theorem islanding_filter_trafo (nodes : List RFNode) (edges : List NEdge) :
    islanding_errors (nodes.filter (keepClosedTrafo nodes)) edges
      = islanding_errors nodes edges := by
  unfold islanding_errors firstSlacklessComponent
  rw [islandNeighbors_filter_trafo, islandBusIds_filter_trafo,
    extGridBusIds_filter_trafo]

/-- C5: a switch with `closed = false` whose elementType/elementId designate
a line edge (resp. a transformer node) removes exactly that branch's
contribution from the islanding adjacency graph: deleting all switch-opened
edges (resp. switch-opened transformer nodes) from the input leaves the
neighbour relation — and therefore the islanding verdict — unchanged.  A
component tied to the slack only through such a branch is hence classified
exactly as if the branch were absent. -/
theorem c5_open_switch_disconnects (nodes : List RFNode) (edges : List NEdge) :
    (∀ cur, islandNeighbors nodes (edges.filter (keepClosedLine nodes)) cur
      = islandNeighbors nodes edges cur)
    ∧ (∀ cur, islandNeighbors (nodes.filter (keepClosedTrafo nodes)) edges cur
      = islandNeighbors nodes edges cur)
    ∧ islanding_errors nodes (edges.filter (keepClosedLine nodes))
        = islanding_errors nodes edges
    ∧ islanding_errors (nodes.filter (keepClosedTrafo nodes)) edges
        = islanding_errors nodes edges := by
  refine ⟨?_, ?_, islanding_filter_line nodes edges, islanding_filter_trafo nodes edges⟩
  · intro cur
    rw [islandNeighbors_filter_line]
  · intro cur
    rw [islandNeighbors_filter_trafo]

theorem dfsLoop_prefix (nbrs : String → List String) :
    ∀ (fuel : Nat) (stack visited comp : List String),
      ∃ t, (dfsLoop nbrs fuel stack visited comp).1 = comp ++ t := by
  intro fuel
  induction fuel with
  | zero => intro stack visited comp; exact ⟨[], (List.append_nil comp).symm⟩
  | succ k ih =>
      intro stack visited comp
      cases stack with
      | nil => exact ⟨[], (List.append_nil comp).symm⟩
      | cons cur rest =>
          simp only [dfsLoop]
          obtain ⟨t, ht⟩ := ih (dfsPush (nbrs cur) rest visited).1
            (dfsPush (nbrs cur) rest visited).2 (comp ++ [cur])
          exact ⟨[cur] ++ t, by rw [ht, List.append_assoc]⟩

theorem islandScan_some (nbrs : String → List String) (ext : List String)
    (k : Nat) :
    ∀ (starts visited comp : List String),
      islandScan nbrs ext (k + 1) starts visited = some comp →
      (comp.any fun b => ext.contains b) = false
      ∧ ∃ s, comp.head? = some s ∧ s ∈ comp := by
  intro starts
  induction starts with
  | nil => intro visited comp h; cases h
  | cons start rest ih =>
      intro visited comp h
      unfold islandScan at h
      by_cases hv : visited.contains start = true
      · rw [if_pos hv] at h
        exact ih _ _ h
      · rw [if_neg hv] at h
        by_cases ha : ((dfsLoop nbrs (k + 1) [start] (start :: visited) []).1.any
            fun b => ext.contains b) = true
        · rw [if_pos ha] at h
          exact ih _ _ h
        · rw [if_neg ha] at h
          injection h with h'
          subst h'
          refine ⟨by rwa [Bool.not_eq_true] at ha, ?_⟩
          have hstep : dfsLoop nbrs (k + 1) [start] (start :: visited) []
              = dfsLoop nbrs k (dfsPush (nbrs start) [] (start :: visited)).1
                  (dfsPush (nbrs start) [] (start :: visited)).2 [start] := rfl
          obtain ⟨t, ht⟩ := dfsLoop_prefix nbrs k
            (dfsPush (nbrs start) [] (start :: visited)).1
            (dfsPush (nbrs start) [] (start :: visited)).2 [start]
          rw [hstep, ht]
          exact ⟨start, rfl, List.mem_append.2 (Or.inl (List.mem_singleton.2 rfl))⟩

/-- C4: the islanding check runs only on an otherwise-clean validation; when
the traversal (over bus ids in request order) meets the first component with
no ext_grid bus it emits exactly two errors — the network-level one with
field "islanding" and empty element id, and one naming a representative bus
of that component — and no further component contributes anything. -/
theorem c4_islanding_structure (nodes : List RFNode) (edges : List NEdge)
    (busmap : List (String × Nat)) :
    validate_network nodes edges busmap
      = base_errors nodes edges busmap
        ++ (if (base_errors nodes edges busmap).isEmpty
            then islanding_errors nodes edges else [])
    ∧ (firstSlacklessComponent nodes edges = none →
        islanding_errors nodes edges = [])
    ∧ (∀ comp, firstSlacklessComponent nodes edges = some comp →
        ∃ rep, comp.head? = some rep ∧ rep ∈ comp
          ∧ (comp.any fun b => (extGridBusIds nodes).contains b) = false
          ∧ islanding_errors nodes edges
              = [islandNetworkError, islandBusError rep]
          ∧ islandNetworkError.element_id = ""
          ∧ islandNetworkError.element_type = "network"
          ∧ islandNetworkError.field = some "islanding"
          ∧ (islandBusError rep).element_id = rep
          ∧ (islandBusError rep).element_type = "bus") := by
  refine ⟨rfl, ?_, ?_⟩
  · intro h
    unfold islanding_errors
    rw [h]
  · intro comp h
    have hscan := h
    unfold firstSlacklessComponent at hscan
    obtain ⟨hany, s, hhead, hmem⟩ :=
      islandScan_some (islandNeighbors nodes edges) (extGridBusIds nodes)
        (islandBusIds nodes).length (islandBusIds nodes) [] comp hscan
    refine ⟨s, hhead, hmem, hany, ?_, rfl, rfl, rfl, rfl, rfl⟩
    have h1 : islanding_errors nodes edges
        = (match comp.head? with
           | some rep => [islandNetworkError, islandBusError rep]
           | none => [islandNetworkError]) := by
      unfold islanding_errors
      rw [h]
    rw [h1, hhead]

/-- Witness for C4 at the two-bus island instance: the slackless component
["b2"] produces exactly the two islanding errors. -/
theorem c4_witness :
    islanding_errors islandNodes [] = [islandNetworkError, islandBusError "b2"]
    ∧ (islandBusError "b2").element_id = "b2" := by
  obtain ⟨rep, hhead, hmem, hany, heq, hrest⟩ :=
    (c4_islanding_structure islandNodes [] islandBusmap).2.2 ["b2"] rfl
  have hrep : rep = "b2" := by
    have := hhead
    simp [List.head?] at this
    exact this.symm
  subst hrep
  exact ⟨heq, rfl⟩

/-! ### Lemmas for the slack-reporting claim -/

theorem lookup_aset_self {κ α : Type} [DecidableEq κ] [BEq κ] [LawfulBEq κ]
    (m : List (κ × α)) (k : κ) (v : α) : (aset m k v).lookup k = some v := by
  induction m with
  | nil => simp [aset, List.lookup]
  | cons p rest ih =>
      by_cases h : p.1 = k
      · simp [aset, h, List.lookup]
      · have hbeq : (k == p.1) = false := by
          simp [beq_iff_eq]
          exact fun he => h he.symm
        simp [aset, h, List.lookup, hbeq, ih]

theorem lookup_aset_ne {κ α : Type} [DecidableEq κ] [BEq κ] [LawfulBEq κ]
    (m : List (κ × α)) (k k' : κ) (v : α) (h : k' ≠ k) :
    (aset m k v).lookup k' = m.lookup k' := by
  have hbeq : (k' == k) = false := by
    simp [beq_iff_eq]
    exact h
  induction m with
  | nil => simp [aset, List.lookup, hbeq]
  | cons p rest ih =>
      by_cases hp : p.1 = k
      · subst hp
        simp [aset, List.lookup, hbeq]
      · simp [aset, hp, List.lookup, ih]

theorem lookup_some_mem {κ α : Type} [BEq κ] [LawfulBEq κ]
    (m : List (κ × α)) (k : κ) (v : α) (h : m.lookup k = some v) :
    (k, v) ∈ m := by
  induction m with
  | nil => cases h
  | cons p rest ih =>
      rw [List.lookup] at h
      by_cases hbeq : (k == p.1) = true
      · rw [hbeq] at h
        have hk : k = p.1 := eq_of_beq hbeq
        have hv : p.2 = v := Option.some.inj h
        rw [hk, ← hv]
        exact List.mem_cons_self _ _
      · rw [Bool.not_eq_true] at hbeq
        rw [hbeq] at h
        exact List.mem_cons_of_mem _ (ih h)

theorem mem_values_aset {κ α : Type} [DecidableEq κ] (m : List (κ × α))
    (k : κ) (v : α) :
    ∀ x ∈ (aset m k v).map (·.2), x ∈ m.map (·.2) ∨ x = v := by
  induction m with
  | nil =>
      intro x hx
      simp [aset] at hx
      exact Or.inr hx
  | cons p rest ih =>
      intro x hx
      by_cases hp : p.1 = k
      · simp [aset, hp] at hx
        rcases hx with hx | hx
        · exact Or.inr hx
        · exact Or.inl (by simp [hx])
      · simp [aset, hp] at hx
        rcases hx with hx | hx
        · exact Or.inl (by simp [hx])
        · rcases ih x (by simpa using hx) with h | h
          · exact Or.inl (by simp; right; simpa using h)
          · exact Or.inr h

theorem aset_values_inv (bm : List (String × Nat)) (k : String) (w : Nat)
    (hn : (bm.map (·.2)).Nodup) (hb : ∀ v ∈ bm.map (·.2), v < w) :
    ((aset bm k w).map (·.2)).Nodup
    ∧ ∀ v ∈ (aset bm k w).map (·.2), v < w + 1 := by
  constructor
  · induction bm with
    | nil => simp [aset]
    | cons p rest ih =>
        obtain ⟨pk, pv⟩ := p
        rw [List.map_cons, List.nodup_cons] at hn
        by_cases hp : pk = k
        · rw [show aset ((pk, pv) :: rest) k w = (k, w) :: rest from by
            simp [aset, hp]]
          rw [List.map_cons, List.nodup_cons]
          refine ⟨?_, hn.2⟩
          intro hmem
          have := hb w (by rw [List.map_cons]; exact List.mem_cons_of_mem _ hmem)
          omega
        · rw [show aset ((pk, pv) :: rest) k w = (pk, pv) :: aset rest k w from by
            simp [aset, hp]]
          rw [List.map_cons, List.nodup_cons]
          constructor
          · intro hmem
            rcases mem_values_aset rest k w pv hmem with h | h
            · exact hn.1 h
            · have := hb pv (by rw [List.map_cons]; exact List.mem_cons_self _ _)
              omega
          · exact ih hn.2
              (fun v hv => hb v (by rw [List.map_cons]; exact List.mem_cons_of_mem _ hv))
  · intro v hv
    rcases mem_values_aset bm k w v hv with h | h
    · have := hb v h
      omega
    · omega

theorem addBusesGo_inv (nodes : List RFNode) :
    ∀ (net : Net) (bm : List (String × Nat)) (slack : Option String)
      (out : Net × List (String × Nat) × String),
      addBusesGo net bm slack nodes = .ok out →
      ((bm.map (·.2)).Nodup ∧ ∀ v ∈ bm.map (·.2), v < net.bus.length) →
      (out.2.1.map (·.2)).Nodup
      ∧ ∀ v ∈ out.2.1.map (·.2), v < out.1.bus.length := by
  induction nodes with
  | nil =>
      intro net bm slack out h hinv
      cases slack with
      | none => cases h
      | some s =>
          simp only [addBusesGo] at h
          cases h
          exact hinv
  | cons n rest ih =>
      intro net bm slack out h hinv
      revert h
      simp only [addBusesGo]
      cases hf : pyFloat (dget n.data "vn_kv" (.num (.fin 22))) with
      | none => intro h; cases h
      | some v =>
          intro h
          refine ih _ _ _ out h ?_
          have := aset_values_inv bm n.id net.bus.length hinv.1 hinv.2
          constructor
          · exact this.1
          · intro w hw
            have := this.2 w hw
            simpa [List.length_append] using this

theorem addBusesGo_slack_some (nodes : List RFNode) :
    ∀ (net : Net) (bm : List (String × Nat)) (s0 : String)
      (out : Net × List (String × Nat) × String),
      addBusesGo net bm (some s0) nodes = .ok out → out.2.2 = s0 := by
  induction nodes with
  | nil =>
      intro net bm s0 out h
      simp only [addBusesGo] at h
      cases h
      rfl
  | cons n rest ih =>
      intro net bm s0 out h
      revert h
      simp only [addBusesGo]
      cases hf : pyFloat (dget n.data "vn_kv" (.num (.fin 22))) with
      | none => intro h; cases h
      | some v =>
          intro h
          exact ih _ _ _ out h

theorem add_buses_slack (nodes : List RFNode) (net' : Net)
    (bm : List (String × Nat)) (s : String)
    (hok : add_buses {} nodes = .ok (net', bm, s)) :
    (nodes.head?).map (·.id) = some s := by
  cases nodes with
  | nil => rw [add_buses_nil] at hok; cases hok
  | cons n rest =>
      unfold add_buses at hok
      revert hok
      simp only [addBusesGo]
      cases hf : pyFloat (dget n.data "vn_kv" (.num (.fin 22))) with
      | none => intro h; cases h
      | some v =>
          intro h
          have hs : s = n.id := addBusesGo_slack_some rest _ _ _ _ h
          simp [List.head?, hs]

theorem addBusesGo_ext_grid (nodes : List RFNode) :
    ∀ (net : Net) (bm : List (String × Nat)) (slack : Option String)
      (out : Net × List (String × Nat) × String),
      addBusesGo net bm slack nodes = .ok out →
      out.1.ext_grid = net.ext_grid := by
  induction nodes with
  | nil =>
      intro net bm slack out h
      cases slack with
      | none => cases h
      | some s => simp only [addBusesGo] at h; cases h; rfl
  | cons n rest ih =>
      intro net bm slack out h
      revert h
      simp only [addBusesGo]
      cases hf : pyFloat (dget n.data "vn_kv" (.num (.fin 22))) with
      | none => intro h; cases h
      | some v =>
          intro h
          have hrec := ih _ _ _ out h
          exact hrec

theorem foldl_preserve {α β : Type} (P : α → Prop) (f : α → β → α)
    (h : ∀ a b, P a → P (f a b)) :
    ∀ (l : List β) (a : α), P a → P (l.foldl f a) := by
  intro l
  induction l with
  | nil => intro a ha; exact ha
  | cons b rest ih => intro a ha; exact ih (f a b) (h a b ha)

theorem add_lines_from_nodes_ext_grid (lib : StdLib) (net : Net)
    (nodes : List RFNode) (bm : List (String × Nat)) :
    (add_lines_from_nodes lib net nodes bm).1.ext_grid = net.ext_grid := by
  unfold add_lines_from_nodes
  refine foldl_preserve
    (fun (acc : Net × List (Nat × String) × List (String × Nat) × List CreationStatus) =>
      acc.1.ext_grid = net.ext_grid) _ ?_ nodes _ rfl
  intro acc n hp
  dsimp only
  repeat' split
  all_goals simpa using hp

theorem add_transformers_ext_grid (lib : StdLib) (net : Net)
    (nodes : List RFNode) (bm : List (String × Nat)) :
    (add_transformers lib net nodes bm).1.ext_grid = net.ext_grid := by
  unfold add_transformers
  refine foldl_preserve
    (fun (acc : Net × List (Nat × String) × List CreationStatus) =>
      acc.1.ext_grid = net.ext_grid) _ ?_ nodes _ rfl
  intro acc n hp
  dsimp only
  repeat' split
  all_goals simpa using hp

theorem add_trafo3w_ext_grid (lib : StdLib) (net : Net)
    (nodes : List RFNode) (bm : List (String × Nat)) :
    (add_trafo3w lib net nodes bm).1.ext_grid = net.ext_grid := by
  unfold add_trafo3w
  refine foldl_preserve
    (fun (acc : Net × Nat × List CreationStatus) =>
      acc.1.ext_grid = net.ext_grid) _ ?_ nodes _ rfl
  intro acc n hp
  dsimp only
  repeat' split
  all_goals simpa using hp

theorem foldl_aset_preserve (rest : List (String × Nat)) :
    ∀ (m : List (Nat × String)) (v : Nat), (∀ p ∈ rest, p.2 ≠ v) →
      ((rest.foldl (fun m p => aset m p.2 p.1) m).lookup v) = m.lookup v := by
  induction rest with
  | nil => intro m v _; rfl
  | cons p tl ih =>
      intro m v h
      simp only [List.foldl]
      rw [ih _ _ fun q hq => h q (List.mem_cons_of_mem _ hq)]
      exact lookup_aset_ne _ _ _ _
        fun he => h p (List.mem_cons_self _ _) he.symm

theorem foldl_aset_rev_mem (entries : List (String × Nat)) :
    ∀ (init : List (Nat × String)) (k : String) (v : Nat),
      (k, v) ∈ entries → ((entries.map (·.2)).Nodup) →
      ((entries.foldl (fun m p => aset m p.2 p.1) init).lookup v) = some k := by
  induction entries with
  | nil => intro _ _ _ h _; cases h
  | cons p tl ih =>
      intro init k v hmem hnd
      rw [List.map_cons, List.nodup_cons] at hnd
      simp only [List.foldl]
      rcases List.mem_cons.1 hmem with he | he
      · have hk : p.1 = k := by rw [← he]
        have hv : p.2 = v := by rw [← he]
        rw [foldl_aset_preserve tl _ v ?_]
        · rw [hk, hv]
          exact lookup_aset_self init v k
        · intro q hq hqv
          have hmem2 : v ∈ tl.map (·.2) := List.mem_map.2 ⟨q, hq, hqv⟩
          rw [hv] at hnd
          exact hnd.1 hmem2
      · exact ih _ k v he hnd.2

theorem extGridStep_ext_grid (busmap : List (String × Nat))
    (attach : List (String × String)) (acc : Net × Nat × List CreationStatus)
    (n : RFNode) :
    (extGridStep busmap attach acc n).1.ext_grid
    = if extGridCreationOk busmap attach n then
        acc.1.ext_grid ++ [extGridRowOf busmap attach n]
      else acc.1.ext_grid := by
  simp only [extGridStep, extGridCreationOk, extGridRowOf]
  by_cases hc : effectiveExtGridBusId attach n = ""
      ∨ (List.lookup (effectiveExtGridBusId attach n) busmap).isNone
  · rw [if_pos hc, if_pos hc]
    simp
  · rw [if_neg hc, if_neg hc]
    cases ha : pyFloat (dget n.data "vm_pu" (.num (.fin 1))) with
    | none => simp
    | some vm =>
        cases hb : pyFloat (dget n.data "va_degree" (.num (.fin 0))) with
        | none => simp
        | some va => simp

theorem extGrid_fold_append (busmap : List (String × Nat))
    (attach : List (String × String)) (nodes : List RFNode) :
    ∀ acc : Net × Nat × List CreationStatus,
      ∃ t, (nodes.foldl (extGridStep busmap attach) acc).1.ext_grid
        = acc.1.ext_grid ++ t := by
  induction nodes with
  | nil => intro acc; exact ⟨[], by simp⟩
  | cons n rest ih =>
      intro acc
      obtain ⟨t, ht⟩ := ih (extGridStep busmap attach acc n)
      rw [List.foldl_cons, ht, extGridStep_ext_grid]
      by_cases hok : extGridCreationOk busmap attach n = true
      · rw [if_pos hok]
        exact ⟨extGridRowOf busmap attach n :: t, by simp⟩
      · rw [if_neg hok]
        exact ⟨t, rfl⟩

theorem extGrid_fold_head (busmap : List (String × Nat))
    (attach : List (String × String)) (nodes : List RFNode) :
    ∀ acc : Net × Nat × List CreationStatus, acc.1.ext_grid = [] →
      (((nodes.foldl (extGridStep busmap attach) acc).1.ext_grid.head?).map (·.bus))
      = (nodes.find? (extGridCreationOk busmap attach)).map
          (fun n => (List.lookup (effectiveExtGridBusId attach n) busmap).getD 0) := by
  induction nodes with
  | nil =>
      intro acc hacc
      simp [hacc]
  | cons n rest ih =>
      intro acc hacc
      rw [List.foldl_cons]
      by_cases hok : extGridCreationOk busmap attach n = true
      · obtain ⟨t, ht⟩ :=
          extGrid_fold_append busmap attach rest (extGridStep busmap attach acc n)
        rw [ht, extGridStep_ext_grid, if_pos hok, hacc,
          List.find?_cons_of_pos _ hok]
        simp [extGridRowOf]
      · rw [List.find?_cons_of_neg _ (by simp [hok])]
        refine ih _ ?_
        rw [extGridStep_ext_grid, if_neg hok, hacc]

theorem assemble3_ext_grid (lib : StdLib) (ln tr t3 : List RFNode)
    (a : Assembly) :
    (assembleTrafo3w lib t3 (assembleTransformers lib tr
      (assembleLines lib ln a))).net.ext_grid = a.net.ext_grid := by
  have e1 : (assembleLines lib ln a).net.ext_grid = a.net.ext_grid :=
    add_lines_from_nodes_ext_grid lib a.net ln a.busmap
  have e2 : (assembleTransformers lib tr (assembleLines lib ln a)).net.ext_grid
      = (assembleLines lib ln a).net.ext_grid :=
    add_transformers_ext_grid lib (assembleLines lib ln a).net tr
      (assembleLines lib ln a).busmap
  have e3 : (assembleTrafo3w lib t3 (assembleTransformers lib tr
        (assembleLines lib ln a))).net.ext_grid
      = (assembleTransformers lib tr (assembleLines lib ln a)).net.ext_grid :=
    add_trafo3w_ext_grid lib (assembleTransformers lib tr
      (assembleLines lib ln a)).net t3
      (assembleTransformers lib tr (assembleLines lib ln a)).busmap
  exact e3.trans (e2.trans e1)

theorem simulateMain_slack (lib : StdLib) (solver : Net → SolverOutcome)
    (req : SimulateRequest) (net0 : Net) (busmap : List (String × Nat))
    (slack0 : String) :
    (simulateMain lib solver req net0 busmap slack0).summary.slack_bus_id
    = (assembleExtGrids (nodesOfType req.nodes "ext_grid")
        (normalizeEdges req.edges)
        (assembleTrafo3w lib (nodesOfType req.nodes "trafo3w")
          (assembleTransformers lib (nodesOfType req.nodes "transformer")
            (assembleLines lib (nodesOfType req.nodes "line")
              ({ net := net0, busmap := busmap, slack := slack0 } : Assembly))))).slack :=
  rfl

theorem assembleExtGrids_slack (egnodes : List RFNode) (edges : List NEdge)
    (a : Assembly) (ha : a.net.ext_grid = [])
    (hnd : ((a.busmap.map (·.2)).Nodup)) :
    (assembleExtGrids egnodes edges a).slack
    = ((egnodes.find? (extGridCreationOk a.busmap (extGridAttachMap edges))).map
        (effectiveExtGridBusId (extGridAttachMap edges))).getD a.slack := by
  have hhead := extGrid_fold_head a.busmap (extGridAttachMap edges) egnodes
    (a.net, 0, ([] : List CreationStatus)) ha
  cases hfind : egnodes.find? (extGridCreationOk a.busmap (extGridAttachMap edges)) with
  | none =>
      rw [hfind] at hhead
      simp only [Option.map_none', Option.map_eq_none'] at hhead
      simp only [assembleExtGrids, add_ext_grids]
      rw [hhead]
      rfl
  | some n =>
      rw [hfind] at hhead
      simp only [Option.map_some', Option.map_eq_some'] at hhead
      obtain ⟨eg, heg, hegbus⟩ := hhead
      have hok : extGridCreationOk a.busmap (extGridAttachMap edges) n = true :=
        List.find?_some hfind
      have hlk : ∃ b, List.lookup (effectiveExtGridBusId (extGridAttachMap edges) n)
          a.busmap = some b := by
        simp only [extGridCreationOk] at hok
        by_cases hc : effectiveExtGridBusId (extGridAttachMap edges) n = ""
            ∨ (List.lookup (effectiveExtGridBusId (extGridAttachMap edges) n)
                a.busmap).isNone
        · rw [if_pos hc] at hok
          cases hok
        · push_neg at hc
          cases hl : List.lookup (effectiveExtGridBusId (extGridAttachMap edges) n)
              a.busmap with
          | none => rw [hl] at hc; simp at hc
          | some b => exact ⟨b, rfl⟩
      obtain ⟨b, hb⟩ := hlk
      have hmem := lookup_some_mem a.busmap _ b hb
      have hrev := foldl_aset_rev_mem a.busmap [] _ b hmem hnd
      have hegbus2 : eg.bus = b := by
        rw [hb] at hegbus
        simpa using hegbus
      simp only [assembleExtGrids, add_ext_grids]
      rw [heg]
      show ((a.busmap.foldl (fun (m : List (Nat × String)) p => aset m p.2 p.1)
          []).lookup eg.bus).getD a.slack
        = (Option.map (effectiveExtGridBusId (extGridAttachMap edges))
            (some n)).getD a.slack
      rw [hegbus2, hrev]
      rfl

/-- C7 (counterexample): the claim's slack-reporting rule fails on a request
whose one bus node carries a null `vn_kv`: the request has a first bus node
("bus-1") and no ext_grid, so the claim demands `slack_bus_id = "bus-1"`,
but the un-guarded float conversion of bus creation raises, the catch-all
builds the error response, and `slack_bus_id` is the empty string. -/
theorem c7_counterexample :
    firstBusNodeId badVnKvReq.nodes = some "bus-1"
    ∧ nodesOfType badVnKvReq.nodes "ext_grid" = []
    ∧ (simulate_from_reactflow demoLib (constSolver (.notConverged "x"))
        badVnKvReq).summary.slack_bus_id = "" := by
  refine ⟨rfl, rfl, ?_⟩
  rw [simulate_addbuses_error demoLib (constSolver (.notConverged "x")) badVnKvReq
    "float() argument for vn_kv is not convertible" rfl rfl]
  rfl

/-- C7 as amended: when bus creation succeeds, the slack id seeded by
`_add_buses` is the id of the first bus node; the reported `slack_bus_id`
equals, on a clean validation, the external id of the bus referenced by the
first successfully created ext_grid (falling back to the seed when no
ext_grid is created), and equals the seed itself when validation fails
(bus-creation failure, covered by the counterexample, reports `""`). -/
theorem c7_slack_reporting_amended (lib : StdLib)
    (solver : Net → SolverOutcome) (req : SimulateRequest) (net0 : Net)
    (busmap : List (String × Nat)) (slack0 : String)
    (hok : add_buses {} (nodesOfType req.nodes "bus")
      = .ok (net0, busmap, slack0)) :
    firstBusNodeId req.nodes = some slack0
    ∧ (simulate_from_reactflow lib solver req).summary.slack_bus_id
      = (if (validate_network req.nodes (normalizeEdges req.edges)
              busmap).isEmpty then
          (firstSuccessfulExtGridBusId req.nodes (normalizeEdges req.edges)
            busmap).getD slack0
        else slack0) := by
  refine ⟨add_buses_slack _ _ _ _ hok, ?_⟩
  by_cases hval : (validate_network req.nodes (normalizeEdges req.edges)
      busmap).isEmpty = true
  · have h0 : net0.ext_grid = [] := by
      have h := addBusesGo_ext_grid (nodesOfType req.nodes "bus") {} [] none
        (net0, busmap, slack0) hok
      simpa using h
    have hext : (assembleTrafo3w lib (nodesOfType req.nodes "trafo3w")
        (assembleTransformers lib (nodesOfType req.nodes "transformer")
          (assembleLines lib (nodesOfType req.nodes "line")
            ({ net := net0, busmap := busmap, slack := slack0 }
              : Assembly)))).net.ext_grid = [] :=
      (assemble3_ext_grid lib _ _ _ _).trans h0
    have hnd : ((busmap.map (·.2)).Nodup) :=
      (addBusesGo_inv (nodesOfType req.nodes "bus") {} [] none
        (net0, busmap, slack0) hok (by simp)).1
    rw [if_pos hval,
      simulate_main_eq lib solver req net0 busmap slack0 hok hval,
      simulateMain_slack lib solver req net0 busmap slack0,
      assembleExtGrids_slack (nodesOfType req.nodes "ext_grid")
        (normalizeEdges req.edges) _ hext hnd]
    rfl
  · rw [Bool.not_eq_true] at hval
    rw [if_neg (by simp [hval]),
      simulate_validation_failed lib solver req net0 busmap slack0 hok hval]
    rfl

/-- C7 witness: the happy-path scenario instantiates the amended statement;
its first bus node is "bus-1", bus creation yields that seed, and the first
(and only) ext_grid — successfully created at bus-1 — makes the reported
slack id "bus-1". -/
theorem c7_witness :
    firstBusNodeId scenarioReq.nodes = some "bus-1"
    ∧ (simulate_from_reactflow demoLib flatSolver scenarioReq).summary.slack_bus_id
      = "bus-1" := by
  obtain ⟨h1, h2⟩ := c7_slack_reporting_amended demoLib flatSolver scenarioReq
    { bus := [⟨.fin 22, "Bus 1", true⟩, ⟨.fin 22, "Bus 2", true⟩] }
    [("bus-1", 0), ("bus-2", 1)] "bus-1" rfl
  refine ⟨h1, ?_⟩
  rw [h2]
  rfl

end SimSpec
